import Mathlib

/-!
# Counter aggregation and ranking (src/src/appwrite.js)

A shallow embedding of the four exported operations of `src/src/appwrite.js`
(`updateSearchCount`, `getTrendingMovies`, `updatePosterUrl`, `updateClickCount`)
over an explicit model of the remote document store, and of the `handler` of
`src/api/trending.js` over the URL constructor and the network it calls. The store client
(`database`, `Query`, `ID` of the `appwrite` package) is not part of the
repository; it is modelled after the capability the specification describes
(list by filter, create, update, each call able to fail), one database, its
collections told apart by the `$collectionId` of their documents.

Conventions of the embedding:

* a JavaScript value that may be `undefined` or `null` is a `Js α`;
* an `async` function is a function `World → Except Err α × World`: the `Except`
  part is the settled promise (`error` = rejected), the `World` part is the store
  after the call;
* every store call consumes one entry of `World.faults`; `some e` makes that call
  reject with `e` and leave the documents untouched, `none` (or an exhausted
  schedule) lets it succeed;
* counts are mathematical integers: the embedding is exact for counts of
  magnitude below 2^53, where JavaScript numbers are exact; console output is
  not part of the state.
-/

namespace Appwrite

/-! ## JavaScript values -/

/-- A JavaScript value of carrier type `α` that may also be `undefined` or `null`. -/
inductive Js (α : Type) where
  | undefined : Js α
  | null : Js α
  | val (a : α) : Js α
  deriving DecidableEq, Repr

/-- Truthiness of a string-or-nullish value: only a non-empty string is truthy. -/
def truthyStr : Js String → Bool
  | .val s => s != ""
  | _ => false

/-- JavaScript `a || b` on string-or-nullish values. -/
def orStr (a b : Js String) : Js String :=
  if truthyStr a then a else b

/-- JavaScript `a ?? b`: `b` exactly when `a` is `undefined` or `null`. -/
def nullish {α : Type} (a b : Js α) : Js α :=
  match a with
  | .val _ => a
  | _ => b

/-- JavaScript `(c || 0)` on a count read from a document. -/
def orZero (c : Js Int) : Int :=
  match c with
  | .val n => if n != 0 then n else 0
  | _ => 0

/-- Whether the characters `pat` open the character list `txt`. -/
def startsWithChars : List Char → List Char → Bool
  | [], _ => true
  | _ :: _, [] => false
  | p :: ps, c :: cs => p == c && startsWithChars ps cs

/-- Whether the characters `pat` occur contiguously somewhere in `txt`. -/
def includesChars (pat : List Char) : List Char → Bool
  | [] => startsWithChars pat []
  | c :: cs => startsWithChars pat (c :: cs) || includesChars pat cs

/-- JavaScript `s.includes(pat)`. -/
def includes (s pat : String) : Bool :=
  includesChars pat.data s.data

/-- JavaScript `s.endsWith(pat)`. -/
def endsWith (s pat : String) : Bool :=
  startsWithChars pat.data.reverse s.data.reverse

/-! ## Data model -/

/-- The attributes a counter document can carry (the payload of create and update
calls; `undefined` means the key is absent from the payload). -/
structure Fields where
  searchTerm : Js String := .undefined
  movie_id : Js Int := .undefined
  count : Js Int := .undefined
  title : Js String := .undefined
  poster_url : Js String := .undefined
  vote_average : Js String := .undefined
  release_date : Js String := .undefined
  original_language : Js String := .undefined
  deriving DecidableEq, Repr

/-- A stored document: its attributes, the store-assigned `$id` and the
`$collectionId` of the collection that holds it. -/
structure Doc extends Fields where
  id : Nat
  collectionId : String
  deriving DecidableEq, Repr

/-- A movie object as delivered by the metadata API (`vote_average` is carried
verbatim, as its decimal text). -/
structure Movie where
  id : Js Int := .undefined
  title : Js String := .undefined
  poster_path : Js String := .undefined
  vote_average : Js String := .undefined
  release_date : Js String := .undefined
  original_language : Js String := .undefined
  deriving DecidableEq, Repr

/-- The error object a rejected store call throws. -/
structure Err where
  message : Js String
  deriving DecidableEq, Repr

/-- `movie?.id` -/
def Movie.id? : Js Movie → Js Int
  | .val m => m.id
  | _ => .undefined

/-- `movie?.title` -/
def Movie.title? : Js Movie → Js String
  | .val m => m.title
  | _ => .undefined

/-- `movie?.poster_path` -/
def Movie.poster_path? : Js Movie → Js String
  | .val m => m.poster_path
  | _ => .undefined

/-- `movie?.vote_average` -/
def Movie.vote_average? : Js Movie → Js String
  | .val m => m.vote_average
  | _ => .undefined

/-- `movie?.release_date` -/
def Movie.release_date? : Js Movie → Js String
  | .val m => m.release_date
  | _ => .undefined

/-- `movie?.original_language` -/
def Movie.original_language? : Js Movie → Js String
  | .val m => m.original_language
  | _ => .undefined

/-! ## The document store -/

/-- Attribute names used in queries. -/
inductive Attr where
  | searchTerm | movie_id | count
  deriving DecidableEq, Repr

/-- A query operand. -/
inductive Value where
  | str (s : String)
  | num (n : Int)
  deriving DecidableEq, Repr

/-- The queries the code builds: `Query.equal`, `Query.orderDesc`, `Query.limit`. -/
inductive Query where
  | equal (a : Attr) (v : Value)
  | orderDesc (a : Attr)
  | limit (n : Nat)
  deriving DecidableEq, Repr

/-- A request issued to the store. -/
inductive Call where
  | list (coll : String) (qs : List Query)
  | create (coll : String) (id : Nat) (data : Fields)
  | update (coll : String) (id : Nat) (data : Fields)
  deriving DecidableEq, Repr

/-- The world an operation runs in: the stored documents (in the store's natural
order), the next identifier `ID.unique()` hands out, the outcome schedule of the
coming store calls, and the requests issued so far. -/
structure World where
  docs : List Doc := []
  nextId : Nat := 0
  faults : List (Option Err) := []
  calls : List Call := []
  deriving DecidableEq, Repr

/-- The value of attribute `a` in document `d`. -/
def Doc.attr (d : Doc) : Attr → Js Value
  | .searchTerm => match d.searchTerm with
    | .val s => .val (.str s)
    | .null => .null
    | .undefined => .undefined
  | .movie_id => match d.movie_id with
    | .val n => .val (.num n)
    | .null => .null
    | .undefined => .undefined
  | .count => match d.count with
    | .val n => .val (.num n)
    | .null => .null
    | .undefined => .undefined

/-- The numeric sort key of attribute `a` in `d`; a missing or non-numeric value
has no key and sorts below every number. -/
def Doc.rank (d : Doc) (a : Attr) : Option Int :=
  match d.attr a with
  | .val (.num n) => some n
  | _ => none

/-- Order on sort keys: no key is the least. -/
def rankLe : Option Int → Option Int → Bool
  | none, _ => true
  | some _, none => false
  | some a, some b => decide (a ≤ b)

/-- Document `x` may precede document `y` when ordering descending by `a`. -/
def descBy (a : Attr) (x y : Doc) : Prop :=
  rankLe (y.rank a) (x.rank a) = true

instance (a : Attr) : DecidableRel (descBy a) :=
  fun x y => inferInstanceAs (Decidable (rankLe (y.rank a) (x.rank a) = true))

/-- Whether document `d` passes query `q` (only `equal` filters). -/
def Query.passes (d : Doc) : Query → Bool
  | .equal a v => decide (d.attr a = .val v)
  | _ => true

/-- The attribute of the first `orderDesc` query, if any. -/
def orderOf : List Query → Option Attr
  | [] => none
  | .orderDesc a :: _ => some a
  | _ :: qs => orderOf qs

/-- The bound of the first `limit` query, if any. -/
def limitOf : List Query → Option Nat
  | [] => none
  | .limit n :: _ => some n
  | _ :: qs => limitOf qs

/-- Modelled from the spec: what the store's list capability selects (the
store itself is outside the repository). The documents of collection `coll`
selected by `qs`: filtered by the `equal` queries, ordered descending by the
`orderDesc` query (ties keep the store's natural order), cut to the `limit`. -/
def selectDocs (docs : List Doc) (coll : String) (qs : List Query) : List Doc :=
  let found := docs.filter (fun d => decide (d.collectionId = coll) && qs.all (Query.passes d))
  let ordered := match orderOf qs with
    | some a => found.insertionSort (descBy a)
    | none => found
  match limitOf qs with
  | some n => ordered.take n
  | none => ordered

/-- Modelled from the spec: what the store keeps of a payload attribute on
create; an absent key (`undefined` is dropped when the payload is serialised) is
stored as `null`. -/
def stored {α : Type} : Js α → Js α
  | .undefined => .null
  | x => x

/-- Modelled from the spec: partial update of one attribute; an absent key
leaves the old value, `null` and values overwrite it. -/
def merge {α : Type} (old new : Js α) : Js α :=
  match new with
  | .undefined => old
  | x => x

/-- The document created from payload `data`. -/
def Fields.toDoc (data : Fields) (coll : String) (id : Nat) : Doc :=
  { searchTerm := stored data.searchTerm
    movie_id := stored data.movie_id
    count := stored data.count
    title := stored data.title
    poster_url := stored data.poster_url
    vote_average := stored data.vote_average
    release_date := stored data.release_date
    original_language := stored data.original_language
    id := id
    collectionId := coll }

/-- Document `d` after the partial update `data`. -/
def Doc.patch (d : Doc) (data : Fields) : Doc :=
  { searchTerm := merge d.searchTerm data.searchTerm
    movie_id := merge d.movie_id data.movie_id
    count := merge d.count data.count
    title := merge d.title data.title
    poster_url := merge d.poster_url data.poster_url
    vote_average := merge d.vote_average data.vote_average
    release_date := merge d.release_date data.release_date
    original_language := merge d.original_language data.original_language
    id := d.id
    collectionId := d.collectionId }

/-- Replace the first document satisfying `p` by its image under `f`; `none`
when no document satisfies `p`. -/
def updateFirst (p : Doc → Bool) (f : Doc → Doc) : List Doc → Option (List Doc)
  | [] => none
  | d :: ds =>
    if p d then some (f d :: ds)
    else match updateFirst p f ds with
      | some ds' => some (d :: ds')
      | none => none

/-- Modelled from the spec: each store call may fail. The outcome scheduled for
the next store call, and the world with that entry consumed and the request
recorded. -/
def World.request (w : World) (c : Call) : Option Err × World :=
  match w.faults with
  | [] => (none, { w with calls := w.calls ++ [c] })
  | f :: fs => (f, { w with faults := fs, calls := w.calls ++ [c] })

/-- Modelled from the spec: `ID.unique()`, a fresh store identifier. -/
def ID_unique (w : World) : Nat × World :=
  (w.nextId, { w with nextId := w.nextId + 1 })

/-- Modelled from the spec: the store capability `findByEquality`/list,
`database.listDocuments(DATABASE_ID, coll, qs)`, returning `results.documents`. -/
def listDocuments (coll : String) (qs : List Query) (w : World) :
    Except Err (List Doc) × World :=
  match w.request (.list coll qs) with
  | (some e, w1) => (.error e, w1)
  | (none, w1) => (.ok (selectDocs w1.docs coll qs), w1)

/-- Modelled from the spec: the store capability `create`,
`database.createDocument(DATABASE_ID, coll, id, data)`; the new document goes
last in the natural order. -/
def createDocument (coll : String) (id : Nat) (data : Fields) (w : World) :
    Except Err Doc × World :=
  match w.request (.create coll id data) with
  | (some e, w1) => (.error e, w1)
  | (none, w1) =>
    let doc := data.toDoc coll id
    (.ok doc, { w1 with docs := w1.docs ++ [doc] })

/-- The error of an update that addresses no stored document. -/
def notFound : Err :=
  { message := .val "Document with the requested ID could not be found." }

/-- Modelled from the spec: the store capability `update`,
`database.updateDocument(DATABASE_ID, coll, id, data)`, a partial update of the
document of `coll` with identifier `id`. -/
def updateDocument (coll : String) (id : Nat) (data : Fields) (w : World) :
    Except Err Unit × World :=
  match w.request (.update coll id data) with
  | (some e, w1) => (.error e, w1)
  | (none, w1) =>
    match updateFirst (fun d => decide (d.collectionId = coll) && decide (d.id = id))
        (fun d => d.patch data) w1.docs with
    | some docs' => (.ok (), { w1 with docs := docs' })
    | none => (.error notFound, w1)

/-! ## Configuration (lines 3-11) -/

/-- The environment variables that name the two collections. -/
structure Config where
  VITE_APPWRITE_COLLECTION_ID : String
  VITE_APPWRITE_CLICKS_COLLECTION_ID : Js String
  deriving DecidableEq, Repr

/-- Main collection for search term metrics. -/
def COLLECTION_ID (cfg : Config) : String :=
  cfg.VITE_APPWRITE_COLLECTION_ID

/-- Separate collection for click metrics; falls back to the main collection
when not provided. -/
def CLICKS_COLLECTION_ID (cfg : Config) : String :=
  match cfg.VITE_APPWRITE_CLICKS_COLLECTION_ID with
  | .val s => if s != "" then s else COLLECTION_ID cfg
  | _ => COLLECTION_ID cfg

/-! ## The exported operations -/

/-- The poster URL built from a truthy `poster_path`. -/
def posterOf (path : Js String) : Js String :=
  match path with
  | .val p => if p != "" then .val ("https://image.tmdb.org/t/p/w500/" ++ p) else .undefined
  | _ => .undefined

/-- `doc.poster_url.includes(pat)`, evaluated only for a truthy `poster_url`. -/
def urlIncludes (url : Js String) (pat : String) : Bool :=
  match url with
  | .val s => includes s pat
  | _ => false

/-- `doc.poster_url.endsWith(pat)`, evaluated only for a truthy `poster_url`. -/
def urlEndsWith (url : Js String) (pat : String) : Bool :=
  match url with
  | .val s => endsWith s pat
  | _ => false

/-- `err?.message?.includes('Unknown attribute')` -/
def isUnknownAttribute (err : Err) : Bool :=
  match err.message with
  | .val m => includes m "Unknown attribute"
  | _ => false

/-- The `fullPayload` of `updateSearchCount` (lines 37-48). -/
def fullPayload (searchTerm : String) (movie : Js Movie) : Fields :=
  { searchTerm := .val searchTerm
    count := .val 1
    movie_id := Movie.id? movie
    title := Movie.title? movie
    poster_url :=
      match posterOf (Movie.poster_path? movie) with
      | .val u => .val u
      | _ => .val "/no-movie.png"
    vote_average := Movie.vote_average? movie
    release_date := Movie.release_date? movie
    original_language := Movie.original_language? movie }

/-- The minimal payload of the retry in `updateSearchCount` (lines 56-60). -/
def minimalPayload (searchTerm : String) : Fields :=
  { searchTerm := .val searchTerm
    count := .val 1
    poster_url := .val "/no-movie.png" }

/-- The update payload of `updateSearchCount` (lines 27-34). -/
def searchUpdate (doc : Doc) (movie : Js Movie) : Fields :=
  let newPoster := posterOf (Movie.poster_path? movie)
  let needsPosterUpdate := truthyStr newPoster &&
    (!truthyStr doc.poster_url || urlIncludes doc.poster_url "placeholder.com"
      || urlIncludes doc.poster_url "No+Image")
  { count := .val (orZero doc.count + 1)
    poster_url := if needsPosterUpdate then newPoster else .undefined
    title := orStr (Movie.title? movie) doc.title
    movie_id := nullish (Movie.id? movie) doc.movie_id }

/-- The update payload of `updateClickCount` (lines 111-117). -/
def clickUpdate (doc : Doc) (movie : Movie) : Fields :=
  let newPoster := posterOf movie.poster_path
  let needsPosterUpdate := truthyStr newPoster &&
    (!truthyStr doc.poster_url || urlIncludes doc.poster_url "placeholder.com"
      || urlIncludes doc.poster_url "No+Image" || urlEndsWith doc.poster_url "/no-movie.png")
  { count := .val (orZero doc.count + 1)
    title := movie.title
    poster_url := if needsPosterUpdate then newPoster else .undefined }

/-- The create payload of `updateClickCount` (lines 119-124). -/
def clickCreate (movie : Movie) : Fields :=
  { movie_id := movie.id
    title := movie.title
    count := .val 1
    poster_url :=
      match posterOf movie.poster_path with
      | .val u => .val u
      | _ => .val "/no-movie.png" }

/-- The outer `try ... catch (error)` of the three counting operations: a
rejection of the body is caught (and logged), so the operation resolves. -/
def catchAll (r : Except Err Unit × World) : Except Err Unit × World :=
  match r with
  | (.error _, w1) => (.ok (), w1)
  | (.ok u, w1) => (.ok u, w1)

/-- The body of the outer `try` of `updateSearchCount` (lines 21-66). -/
def updateSearchCountBody (cfg : Config) (searchTerm : String) (movie : Js Movie)
    (w : World) : Except Err Unit × World :=
  match listDocuments (COLLECTION_ID cfg) [.equal .searchTerm (.str searchTerm)] w with
  | (.error e, w1) => (.error e, w1)
  | (.ok results, w1) =>
    match results with
    | doc :: _ =>
      updateDocument (COLLECTION_ID cfg) doc.id (searchUpdate doc movie) w1
    | [] =>
      let (id, w2) := ID_unique w1
      match createDocument (COLLECTION_ID cfg) id (fullPayload searchTerm movie) w2 with
      | (.ok _, w3) => (.ok (), w3)
      | (.error err, w3) =>
        if isUnknownAttribute err then
          let (id', w4) := ID_unique w3
          match createDocument (COLLECTION_ID cfg) id' (minimalPayload searchTerm) w4 with
          | (.ok _, w5) => (.ok (), w5)
          | (.error e, w5) => (.error e, w5)
        else (.error err, w3)

/-- `updateSearchCount(searchTerm, movie)` (lines 19-71): the body, with every
error caught by the outer `catch`. -/
def updateSearchCount (cfg : Config) (searchTerm : String) (movie : Js Movie)
    (w : World) : Except Err Unit × World :=
  catchAll (updateSearchCountBody cfg searchTerm movie w)

/-- `getTrendingMovies()` (lines 73-84). -/
def getTrendingMovies (cfg : Config) (w : World) : Except Err (List Doc) × World :=
  match listDocuments (CLICKS_COLLECTION_ID cfg) [.orderDesc .count, .limit 5] w with
  | (.ok results, w1) => (.ok results, w1)
  | (.error _, w1) => (.ok [], w1)

/-- The body of the `try` of `updatePosterUrl` (lines 90-96). -/
def updatePosterUrlBody (cfg : Config) (movieId : Int) (newPosterUrl : String)
    (w : World) : Except Err Unit × World :=
  match listDocuments (CLICKS_COLLECTION_ID cfg) [.equal .movie_id (.num movieId)] w with
  | (.error e, w1) => (.error e, w1)
  | (.ok results, w1) =>
    match results with
    | [] => (.ok (), w1)
    | doc :: _ =>
      if doc.poster_url = .val newPosterUrl then (.ok (), w1)
      else updateDocument (CLICKS_COLLECTION_ID cfg) doc.id { poster_url := .val newPosterUrl } w1

/-- `updatePosterUrl(movieId, newPosterUrl)` (lines 87-100). -/
def updatePosterUrl (cfg : Config) (movieId : Js Int) (newPosterUrl : Js String)
    (w : World) : Except Err Unit × World :=
  match movieId, newPosterUrl with
  | .val m, .val u =>
    if m != 0 && u != "" then
      catchAll (updatePosterUrlBody cfg m u w)
    else (.ok (), w)
  | _, _ => (.ok (), w)

/-- The body of the `try` of `updateClickCount` (lines 106-125), for a movie
whose `id` is the truthy number `mid`. -/
def updateClickCountBody (cfg : Config) (movie : Movie) (mid : Int)
    (w : World) : Except Err Unit × World :=
  match listDocuments (CLICKS_COLLECTION_ID cfg) [.equal .movie_id (.num mid)] w with
  | (.error e, w1) => (.error e, w1)
  | (.ok results, w1) =>
    match results with
    | doc :: _ =>
      updateDocument (CLICKS_COLLECTION_ID cfg) doc.id (clickUpdate doc movie) w1
    | [] =>
      let (id, w2) := ID_unique w1
      match createDocument (CLICKS_COLLECTION_ID cfg) id (clickCreate movie) w2 with
      | (.ok _, w3) => (.ok (), w3)
      | (.error e, w3) => (.error e, w3)

/-- `updateClickCount(movie)` (lines 103-129); the guard `!movie?.id` returns
for a missing movie and for a missing or zero `id`. -/
def updateClickCount (cfg : Config) (movie : Js Movie) (w : World) :
    Except Err Unit × World :=
  match movie with
  | .val m =>
    match m.id with
    | .val mid =>
      if mid != 0 then
        catchAll (updateClickCountBody cfg m mid w)
      else (.ok (), w)
    | _ => (.ok (), w)
  | _ => (.ok (), w)

/-! ## The ranking read endpoint (api/trending.js) -/

/-- The environment variables the handler reads from `process.env` (lines 15-21). -/
structure Env where
  APPWRITE_ENDPOINT : Js String := .undefined
  APPWRITE_PROJECT_ID : Js String := .undefined
  APPWRITE_API_KEY : Js String := .undefined
  APPWRITE_DATABASE_ID : Js String := .undefined
  APPWRITE_CLICKS_COLLECTION_ID : Js String := .undefined
  deriving DecidableEq, Repr

/-- The request, as far as the handler reads it: `req.method`. -/
structure Req where
  method : String
  deriving DecidableEq, Repr

/-- The JSON body the handler sends: an error object `error, details` (an
`undefined` member is absent) or a sequence of documents. -/
inductive Body where
  | error (error : Js String) (details : Js String)
  | documents (docs : List Doc)
  deriving DecidableEq, Repr

/-- The answer of the handler: the headers it set, `res.status(status)` and
`.json(body)`. -/
structure Res where
  status : Nat
  body : Body
  headers : List (String × String) := []
  deriving DecidableEq, Repr

/-- The request the handler sends to the store: the URL, the `queries[]`
parameters appended to it, and the headers. -/
structure StoreRequest where
  url : String
  queries : List Query
  headers : List (String × String)
  deriving DecidableEq, Repr

/-- The parsed body of a store answer, as far as the handler reads it:
`data.documents`. -/
structure Listing where
  documents : Js (List Doc)
  deriving DecidableEq, Repr

/-- What `fetch` does with a request: it rejects, or it resolves to a response
with a status, a text body (`fetchRes.text()`) and a parsed body
(`fetchRes.json()`), each of which may reject. -/
inductive FetchResult where
  | rejected (err : Err)
  | response (status : Nat) (text : Except Err String) (json : Except Err (Js Listing))

/-- A value inside a template literal. -/
def interpolate : Js String → String
  | .val s => s
  | .null => "null"
  | .undefined => "undefined"

/-- The guard of line 23: a required connection parameter is missing. -/
def Env.misconfigured (env : Env) : Bool :=
  !truthyStr env.APPWRITE_ENDPOINT || !truthyStr env.APPWRITE_PROJECT_ID
    || !truthyStr env.APPWRITE_API_KEY

/-- The string handed to `new URL(...)` (line 27). -/
def documentsUrl (env : Env) : String :=
  interpolate env.APPWRITE_ENDPOINT ++ "/databases/" ++ interpolate env.APPWRITE_DATABASE_ID
    ++ "/collections/" ++ interpolate env.APPWRITE_CLICKS_COLLECTION_ID ++ "/documents"

/-- The request of lines 27-38. -/
def storeRequest (env : Env) (href : String) : StoreRequest :=
  { url := href
    queries := [.orderDesc .count, .limit 5]
    headers := [("X-Appwrite-Project", interpolate env.APPWRITE_PROJECT_ID),
      ("X-Appwrite-Key", interpolate env.APPWRITE_API_KEY),
      ("Content-Type", "application/json")] }

/-- `fetchRes.ok`: the status is in the range 200-299. -/
def statusOk (status : Nat) : Bool :=
  decide (200 ≤ status) && decide (status ≤ 299)

/-- The error thrown by `data.documents` when `data` is `null` or `undefined`. -/
def nullData : Err :=
  { message := .val "Cannot read properties of null" }

/-- `data.documents || []`: an array is truthy, whatever its length. -/
def orEmpty : Js (List Doc) → List Doc
  | .val ds => ds
  | _ => []

/-- The `catch (err)` of the handler (lines 47-49). -/
def handlerCatch : Except Err Res → Res
  | .ok res => res
  | .error err => { status := 500, body := .error err.message .undefined }

/-- The body of the `try` of the handler (lines 15-46); `parseURL` is the URL
constructor of the platform (it throws on a string that is no URL) and `fetch`
the network. -/
def handlerBody (parseURL : String → Except Err String) (fetch : StoreRequest → FetchResult)
    (env : Env) : Except Err Res :=
  if env.misconfigured then
    .ok { status := 500, body := .error (.val "Server misconfiguration") .undefined }
  else
    match parseURL (documentsUrl env) with
    | .error err => .error err
    | .ok href =>
      match fetch (storeRequest env href) with
      | .rejected err => .error err
      | .response status text json =>
        if !statusOk status then
          match text with
          | .error err => .error err
          | .ok t => .ok { status := status, body := .error (.val "Appwrite error") (.val t) }
        else
          match json with
          | .error err => .error err
          | .ok (.val data) =>
            .ok { status := 200, body := .documents (orEmpty data.documents) }
          | .ok _ => .error nullData

/-- The `handler(req, res)` of api/trending.js (lines 9-50). -/
def handler (parseURL : String → Except Err String) (fetch : StoreRequest → FetchResult)
    (env : Env) (req : Req) : Res :=
  if req.method != "GET" then
    { status := 405, body := .error (.val "Method not allowed") .undefined
      headers := [("Allow", "GET")] }
  else
    handlerCatch (handlerBody parseURL fetch env)

/-- The handler answered with an error object. -/
def Res.isError (r : Res) : Prop :=
  ∃ e dt, r.body = .error e dt

/-! ## Predicates on worlds -/

/-- Every scheduled store call succeeds. -/
def World.healthy (w : World) : Prop :=
  ∀ f ∈ w.faults, f = none

instance (w : World) : Decidable w.healthy :=
  inferInstanceAs (Decidable (∀ f ∈ w.faults, f = none))

/-- Store-assigned identifiers are unique within each collection. -/
def World.idsUnique (w : World) : Prop :=
  (w.docs.map (fun d => (d.collectionId, d.id))).Nodup

instance (w : World) : Decidable w.idsUnique :=
  inferInstanceAs (Decidable (List.Nodup (w.docs.map (fun d : Doc => (d.collectionId, d.id)))))

/-- The documents of collection `coll`, in the store's natural order. -/
def World.collection (w : World) (coll : String) : List Doc :=
  w.docs.filter (fun d => decide (d.collectionId = coll))

/-- The stored documents `docs1` arise from `docs` by the partial update `data`
of the first document of collection `coll` with identifier `id`. -/
def Patched (coll : String) (id : Nat) (data : Fields) (docs docs1 : List Doc) : Prop :=
  ∃ pre e post, docs = pre ++ e :: post ∧
    (∀ x ∈ pre, ¬ (x.collectionId = coll ∧ x.id = id)) ∧
    e.collectionId = coll ∧ e.id = id ∧
    docs1 = pre ++ e.patch data :: post

instance descBy_total (a : Attr) : IsTotal Doc (descBy a) :=
  ⟨fun x y => by
    unfold descBy
    cases x.rank a <;> cases y.rank a <;> simp [rankLe]
    exact Int.le_total _ _⟩

instance descBy_trans (a : Attr) : IsTrans Doc (descBy a) :=
  ⟨fun x y z h1 h2 => by
    unfold descBy at *
    cases hx : x.rank a <;> cases hy : y.rank a <;> cases hz : z.rank a <;>
      simp_all [rankLe]
    exact Int.le_trans h2 h1⟩

/-- A store as the service keeps it: identifiers unique within each collection
and below the next fresh one. Every store reached from the empty store is of
this kind (`runAll_wellFormed`). -/
def World.wellFormed (w : World) : Prop :=
  w.idsUnique ∧ ∀ d ∈ w.docs, d.id < w.nextId


/-- What one operation may do to the store: the fresh-identifier counter never
decreases, and the documents stay as they are, or one is patched in place, or
one with a fresh identifier is appended. -/
def Evolves (w w1 : World) : Prop :=
  w.nextId ≤ w1.nextId ∧
  (w1.docs = w.docs ∨
    (∃ coll id data, Patched coll id data w.docs w1.docs) ∨
    (∃ coll id data, w.nextId ≤ id ∧ id < w1.nextId ∧ w1.docs = w.docs ++ [Fields.toDoc data coll id]))


/-! ## Sequences of calls -/

/-- One call of the counting interface. -/
inductive Op where
  | search (searchTerm : String) (movie : Js Movie)
  | click (movie : Js Movie)
  | poster (movieId : Js Int) (newPosterUrl : Js String)
  deriving DecidableEq, Repr

/-- The world after one call has settled. -/
def Op.run (cfg : Config) : Op → World → World
  | .search searchTerm movie, w => (updateSearchCount cfg searchTerm movie w).2
  | .click movie, w => (updateClickCount cfg movie w).2
  | .poster movieId newPosterUrl, w => (updatePosterUrl cfg movieId newPosterUrl w).2

/-- The world after a sequence of calls, each awaited before the next starts. -/
def runAll (cfg : Config) : List Op → World → World
  | [], w => w
  | op :: ops, w => runAll cfg ops (op.run cfg w)

/-- At most one document of the search collection per search term. -/
def World.searchKeysUnique (cfg : Config) (w : World) : Prop :=
  ∀ k : String,
    (selectDocs w.docs (COLLECTION_ID cfg) [.equal .searchTerm (.str k)]).length ≤ 1

/-- At most one document of the click collection per movie identifier. -/
def World.clickKeysUnique (cfg : Config) (w : World) : Prop :=
  ∀ m : Int,
    (selectDocs w.docs (CLICKS_COLLECTION_ID cfg) [.equal .movie_id (.num m)]).length ≤ 1

/-! ## Example inputs -/

/-- A configuration with a separate click collection. -/
def cfgSplit : Config :=
  { VITE_APPWRITE_COLLECTION_ID := "metrics"
    VITE_APPWRITE_CLICKS_COLLECTION_ID := .val "movie_clicks" }

/-- A configuration without a click collection: clicks fall back to the main
collection. -/
def cfgShared : Config :=
  { VITE_APPWRITE_COLLECTION_ID := "metrics"
    VITE_APPWRITE_CLICKS_COLLECTION_ID := .undefined }

/-- The movie of the scenario of the specification. -/
def dune : Movie :=
  { id := .val 438631, title := .val "Dune", poster_path := .val "/abc.jpg" }

/-- A search counter for the term dune at count 3. -/
def duneSearchDoc : Doc :=
  { searchTerm := .val "dune", movie_id := .val 438631, count := .val 3, title := .val "Dune"
    poster_url := .val "https://image.tmdb.org/t/p/w500//abc.jpg"
    vote_average := .null, release_date := .null, original_language := .null
    id := 0, collectionId := "metrics" }

/-- A click counter for the movie Dune at count 7. -/
def duneClickDoc : Doc :=
  { searchTerm := .null, movie_id := .val 438631, count := .val 7, title := .val "Dune"
    poster_url := .val "https://image.tmdb.org/t/p/w500//abc.jpg"
    vote_average := .null, release_date := .null, original_language := .null
    id := 1, collectionId := "movie_clicks" }

/-- A store holding one search counter and one click counter. -/
def duneWorld : World :=
  { docs := [duneSearchDoc, duneClickDoc], nextId := 2 }

/-- A click counter with the given identifier, movie and count. -/
def clickDoc (id : Nat) (movie : Int) (title : String) (count : Int) : Doc :=
  { searchTerm := .null, movie_id := .val movie, count := .val count, title := .val title
    poster_url := .val "/no-movie.png"
    vote_average := .null, release_date := .null, original_language := .null
    id := id, collectionId := "movie_clicks" }

/-- The counters A:10, B:7, C:7, D:1 of the specification, stored in the order
D, B, A, C. -/
def rankingWorld : World :=
  { docs := [clickDoc 0 4 "D" 1, clickDoc 1 2 "B" 7, clickDoc 2 1 "A" 10, clickDoc 3 3 "C" 7]
    nextId := 4 }

/-- Five click counters at count 2: a full ranking. -/
def crowdedWorld : World :=
  { docs := [clickDoc 0 1 "A" 2, clickDoc 1 2 "B" 2, clickDoc 2 3 "C" 2, clickDoc 3 4 "D" 2,
      clickDoc 4 5 "E" 2]
    nextId := 5 }

/-- A search counter for the term dune that was created without poster. -/
def sentinelSearchDoc : Doc :=
  { searchTerm := .val "dune", movie_id := .val 438631, count := .val 1, title := .val "Dune"
    poster_url := .val "/no-movie.png"
    vote_average := .null, release_date := .null, original_language := .null
    id := 0, collectionId := "metrics" }

/-- A store whose search counter and click counter for Dune both hold the
sentinel poster. -/
def sentinelWorld : World :=
  { docs := [sentinelSearchDoc, clickDoc 1 438631 "Dune" 1], nextId := 2 }

/-- A click counter for Dune whose poster is the relative no-image path. -/
def relativeDoc : Doc :=
  { searchTerm := .null, movie_id := .val 438631, count := .val 1, title := .val "Dune"
    poster_url := .val "./no-movie.png"
    vote_average := .null, release_date := .null, original_language := .null
    id := 0, collectionId := "movie_clicks" }

/-- A store holding only `relativeDoc`. -/
def relativeWorld : World :=
  { docs := [relativeDoc], nextId := 1 }

/-- A transport failure of a store call. -/
def networkError : Err :=
  { message := .val "Network request failed" }

/-- A complete server configuration. -/
def envReady : Env :=
  { APPWRITE_ENDPOINT := .val "https://fra.cloud.appwrite.io/v1"
    APPWRITE_PROJECT_ID := .val "project"
    APPWRITE_API_KEY := .val "secret"
    APPWRITE_DATABASE_ID := .val "db"
    APPWRITE_CLICKS_COLLECTION_ID := .val "movie_clicks" }

/-- A server configuration without API key. -/
def envNoKey : Env :=
  { APPWRITE_ENDPOINT := .val "https://fra.cloud.appwrite.io/v1"
    APPWRITE_PROJECT_ID := .val "project"
    APPWRITE_DATABASE_ID := .val "db"
    APPWRITE_CLICKS_COLLECTION_ID := .val "movie_clicks" }

/-- A URL constructor that accepts every string. -/
def parseAny (s : String) : Except Err String :=
  .ok s

/-- A store that answers with one document. -/
def storeUp (_ : StoreRequest) : FetchResult :=
  .response 200 (.ok "") (.ok (.val { documents := .val [duneClickDoc] }))

/-- A store that answers 503. -/
def storeDown (_ : StoreRequest) : FetchResult :=
  .response 503 (.ok "Service Unavailable") (.error networkError)

/-- A network on which the request fails. -/
def storeUnreachable (_ : StoreRequest) : FetchResult :=
  .rejected networkError

/-- Dune as an event that carries the empty string as title. -/
def duneEmptyTitle : Movie :=
  { id := .val 438631, title := .val "", poster_path := .val "/abc.jpg" }

/-- Dune as an event whose title is `null`. -/
def duneNullTitle : Movie :=
  { id := .val 438631, title := .null, poster_path := .val "/abc.jpg" }

/-! ## Store lemmas -/

theorem catchAll_snd (r : Except Err Unit × World) : (catchAll r).2 = r.2 := by
  rcases r with ⟨r, w1⟩
  cases r <;> rfl

theorem catchAll_fst (r : Except Err Unit × World) : (catchAll r).1 = .ok () := by
  rcases r with ⟨r, w1⟩
  cases r <;> rfl

theorem request_docs (w : World) (c : Call) : (w.request c).2.docs = w.docs := by
  unfold World.request; split <;> rfl

theorem request_nextId (w : World) (c : Call) : (w.request c).2.nextId = w.nextId := by
  unfold World.request; split <;> rfl

theorem request_fst_of_healthy {w : World} (h : w.healthy) (c : Call) :
    (w.request c).1 = none := by
  unfold World.request
  split
  · rfl
  · next f fs hf => exact h f (by simp [hf])

theorem request_healthy {w : World} (h : w.healthy) (c : Call) :
    (w.request c).2.healthy := by
  unfold World.request
  split
  · exact h
  · next f fs hf =>
    intro g hg
    exact h g (by simp only [hf]; exact List.mem_cons_of_mem _ hg)

theorem listDocuments_of_healthy {w : World} (h : w.healthy) (coll : String) (qs : List Query) :
    listDocuments coll qs w = (.ok (selectDocs w.docs coll qs), (w.request (.list coll qs)).2) := by
  have h1 := request_fst_of_healthy h (.list coll qs)
  unfold listDocuments
  rcases hr : w.request (.list coll qs) with ⟨o, w1⟩
  rw [hr] at h1
  simp only at h1
  subst h1
  have : w1.docs = w.docs := by rw [← request_docs w (.list coll qs), hr]
  simp [this]

theorem createDocument_of_healthy {w : World} (h : w.healthy) (coll : String) (id : Nat)
    (data : Fields) :
    createDocument coll id data w =
      (.ok (data.toDoc coll id),
        { (w.request (.create coll id data)).2 with docs := w.docs ++ [data.toDoc coll id] }) := by
  have h1 := request_fst_of_healthy h (.create coll id data)
  unfold createDocument
  rcases hr : w.request (.create coll id data) with ⟨o, w1⟩
  rw [hr] at h1
  simp only at h1
  subst h1
  have : w1.docs = w.docs := by rw [← request_docs w (.create coll id data), hr]
  simp [this]

theorem updateDocument_of_healthy {w : World} (h : w.healthy) (coll : String) (id : Nat)
    (data : Fields) (docs' : List Doc)
    (hu : updateFirst (fun d => decide (d.collectionId = coll) && decide (d.id = id))
        (fun d => d.patch data) w.docs = some docs') :
    updateDocument coll id data w =
      (.ok (), { (w.request (.update coll id data)).2 with docs := docs' }) := by
  have h1 := request_fst_of_healthy h (.update coll id data)
  unfold updateDocument
  rcases hr : w.request (.update coll id data) with ⟨o, w1⟩
  rw [hr] at h1
  simp only at h1
  subst h1
  have : w1.docs = w.docs := by rw [← request_docs w (.update coll id data), hr]
  simp [this, hu]

theorem updateFirst_split (p : Doc → Bool) (f : Doc → Doc) (pre post : List Doc) (d : Doc)
    (hpre : ∀ x ∈ pre, p x = false) (hd : p d = true) :
    updateFirst p f (pre ++ d :: post) = some (pre ++ f d :: post) := by
  induction pre with
  | nil => simp [updateFirst, hd]
  | cons x xs ih =>
    have hx : p x = false := hpre x (by simp)
    have := ih (fun y hy => hpre y (List.mem_cons_of_mem _ hy))
    simp [updateFirst, hx, this]

/-- The first document selected by equality queries splits the store. -/
theorem selectDocs_equal_cons {docs : List Doc} {coll : String} {a : Attr} {v : Value}
    {d : Doc} {rest : List Doc}
    (h : selectDocs docs coll [.equal a v] = d :: rest) :
    ∃ pre post, docs = pre ++ d :: post ∧
      (∀ x ∈ pre, ¬ (x.collectionId = coll ∧ x.attr a = .val v)) ∧
      d.collectionId = coll ∧ d.attr a = .val v := by
  simp only [selectDocs, orderOf, limitOf] at h
  rw [List.filter_eq_cons_iff] at h
  obtain ⟨pre, post, h1, h2, h3, -⟩ := h
  simp [Query.passes] at h3
  refine ⟨pre, post, h1, ?_, ?_, ?_⟩
  · intro x hx hc
    apply h2 x hx
    simp [Query.passes, hc.1, hc.2]
  · exact h3.1
  · exact h3.2

theorem updateFirst_of_unique {docs pre post : List Doc} {d : Doc} (f : Doc → Doc)
    (hu : (docs.map (fun d : Doc => (d.collectionId, d.id))).Nodup)
    (hs : docs = pre ++ d :: post) :
    updateFirst (fun x => decide (x.collectionId = d.collectionId) && decide (x.id = d.id)) f docs
      = some (pre ++ f d :: post) := by
  subst hs
  apply updateFirst_split
  · intro x hx
    simp only [List.map_append, List.map_cons] at hu
    rw [List.nodup_append] at hu
    have hdis := hu.2.2
    by_contra hc
    simp at hc
    have h1 : (x.collectionId, x.id) ∈ List.map (fun d : Doc => (d.collectionId, d.id)) pre :=
      List.mem_map_of_mem _ hx
    have h2 : (x.collectionId, x.id) ∈
        (d.collectionId, d.id) :: List.map (fun d : Doc => (d.collectionId, d.id)) post := by
      rw [hc.1, hc.2]; exact List.mem_cons_self _ _
    exact hdis h1 h2
  · simp

/-! ## The update path of a record -/

theorem orZero_val (n : Int) : orZero (.val n) = n := by
  unfold orZero
  by_cases h : n = 0 <;> simp [h]

theorem updateSearchCount_existing {cfg : Config} {w : World} {K : String} (movie : Js Movie)
    {d : Doc} {rest : List Doc} (hw : w.healthy) (hu : w.idsUnique)
    (hfind : selectDocs w.docs (COLLECTION_ID cfg) [.equal .searchTerm (.str K)] = d :: rest) :
    ∃ pre post, w.docs = pre ++ d :: post ∧
      (updateSearchCount cfg K movie w).2.docs
        = pre ++ d.patch (searchUpdate d movie) :: post := by
  obtain ⟨pre, post, hs, -, hc, -⟩ := selectDocs_equal_cons hfind
  refine ⟨pre, post, hs, ?_⟩
  have hw1 := request_healthy hw (.list (COLLECTION_ID cfg) [.equal .searchTerm (.str K)])
  have hd1 := request_docs w (.list (COLLECTION_ID cfg) [.equal .searchTerm (.str K)])
  have hup := updateFirst_of_unique (fun x => x.patch (searchUpdate d movie)) hu hs
  rw [hc, ← hd1] at hup
  have := updateDocument_of_healthy hw1 (COLLECTION_ID cfg) d.id (searchUpdate d movie) _ hup
  simp [updateSearchCount, catchAll, updateSearchCountBody, listDocuments_of_healthy hw, hfind,
    this]

theorem updateClickCount_existing {cfg : Config} {w : World} {m : Movie} {K : Int}
    {d : Doc} {rest : List Doc} (hw : w.healthy) (hu : w.idsUnique)
    (hid : m.id = .val K) (hK : K ≠ 0)
    (hfind : selectDocs w.docs (CLICKS_COLLECTION_ID cfg) [.equal .movie_id (.num K)] = d :: rest) :
    ∃ pre post, w.docs = pre ++ d :: post ∧
      (updateClickCount cfg (.val m) w).2.docs
        = pre ++ d.patch (clickUpdate d m) :: post := by
  obtain ⟨pre, post, hs, -, hc, -⟩ := selectDocs_equal_cons hfind
  refine ⟨pre, post, hs, ?_⟩
  have hw1 := request_healthy hw (.list (CLICKS_COLLECTION_ID cfg) [.equal .movie_id (.num K)])
  have hd1 := request_docs w (.list (CLICKS_COLLECTION_ID cfg) [.equal .movie_id (.num K)])
  have hup := updateFirst_of_unique (fun x => x.patch (clickUpdate d m)) hu hs
  rw [hc, ← hd1] at hup
  have := updateDocument_of_healthy hw1 (CLICKS_COLLECTION_ID cfg) d.id (clickUpdate d m) _ hup
  simp [updateClickCount, catchAll, updateClickCountBody, hid, hK, listDocuments_of_healthy hw,
    hfind, this]

/-! ## The create path of a record -/

theorem updateSearchCount_fresh {cfg : Config} {w : World} {K : String} (movie : Js Movie)
    (hw : w.healthy)
    (hfind : selectDocs w.docs (COLLECTION_ID cfg) [.equal .searchTerm (.str K)] = []) :
    (updateSearchCount cfg K movie w).2.docs
      = w.docs ++ [(fullPayload K movie).toDoc (COLLECTION_ID cfg) w.nextId] := by
  have hw1 := request_healthy hw (.list (COLLECTION_ID cfg) [.equal .searchTerm (.str K)])
  have hd1 := request_docs w (.list (COLLECTION_ID cfg) [.equal .searchTerm (.str K)])
  have hn1 := request_nextId w (.list (COLLECTION_ID cfg) [.equal .searchTerm (.str K)])
  have hw2 : (ID_unique (w.request (.list (COLLECTION_ID cfg)
      [.equal .searchTerm (.str K)])).2).2.healthy := hw1
  simp [updateSearchCount, catchAll, updateSearchCountBody, listDocuments_of_healthy hw, hfind,
    createDocument_of_healthy hw2]
  simp [ID_unique, hd1, hn1]

theorem updateClickCount_fresh {cfg : Config} {w : World} {m : Movie} {K : Int}
    (hw : w.healthy) (hid : m.id = .val K) (hK : K ≠ 0)
    (hfind : selectDocs w.docs (CLICKS_COLLECTION_ID cfg) [.equal .movie_id (.num K)] = []) :
    (updateClickCount cfg (.val m) w).2.docs
      = w.docs ++ [(clickCreate m).toDoc (CLICKS_COLLECTION_ID cfg) w.nextId] := by
  have hw1 := request_healthy hw (.list (CLICKS_COLLECTION_ID cfg) [.equal .movie_id (.num K)])
  have hd1 := request_docs w (.list (CLICKS_COLLECTION_ID cfg) [.equal .movie_id (.num K)])
  have hn1 := request_nextId w (.list (CLICKS_COLLECTION_ID cfg) [.equal .movie_id (.num K)])
  have hw2 : (ID_unique (w.request (.list (CLICKS_COLLECTION_ID cfg)
      [.equal .movie_id (.num K)])).2).2.healthy := hw1
  simp [updateClickCount, catchAll, updateClickCountBody, hid, hK, listDocuments_of_healthy hw,
    hfind, createDocument_of_healthy hw2]
  simp [ID_unique, hd1, hn1]


/-! ## The outcome schedule only shrinks -/

theorem request_faults (w : World) (c : Call) : (w.request c).2.faults <:+ w.faults := by
  unfold World.request
  split
  · next h => simp [h]
  · next f fs h => simp [h]

theorem listDocuments_faults {coll : String} {qs : List Query} {w w1 : World}
    {r : Except Err (List Doc)} (h : listDocuments coll qs w = (r, w1)) :
    w1.faults <:+ w.faults := by
  have := request_faults w (.list coll qs)
  unfold listDocuments at h
  split at h <;> simp_all

theorem createDocument_faults {coll : String} {id : Nat} {data : Fields} {w w1 : World}
    {r : Except Err Doc} (h : createDocument coll id data w = (r, w1)) :
    w1.faults <:+ w.faults := by
  have := request_faults w (.create coll id data)
  unfold createDocument at h
  split at h
  · simp_all
  · simp only [Prod.mk.injEq] at h
    rw [← h.2]
    simp_all

theorem updateDocument_faults {coll : String} {id : Nat} {data : Fields} {w w1 : World}
    {r : Except Err Unit} (h : updateDocument coll id data w = (r, w1)) :
    w1.faults <:+ w.faults := by
  have := request_faults w (.update coll id data)
  unfold updateDocument at h
  split at h
  · simp_all
  · split at h
    · simp only [Prod.mk.injEq] at h
      rw [← h.2]
      simp_all
    · simp_all

theorem healthy_of_suffix {w w1 : World} (h : w1.faults <:+ w.faults) (hw : w.healthy) :
    w1.healthy :=
  fun f hf => hw f (h.subset hf)

theorem updateClickCountBody_faults (cfg : Config) (m : Movie) (mid : Int) (w : World) :
    (updateClickCountBody cfg m mid w).2.faults <:+ w.faults := by
  unfold updateClickCountBody
  split
  · next e w1 h => exact listDocuments_faults h
  · next rs w1 h =>
    have h1 := listDocuments_faults h
    split
    · next doc tl =>
      exact (updateDocument_faults (Prod.mk.eta).symm).trans h1
    · simp only [ID_unique]
      split
      · next d w3 h3 => exact (createDocument_faults h3).trans h1
      · next e w3 h3 => exact (createDocument_faults h3).trans h1

theorem updateClickCount_faults (cfg : Config) (movie : Js Movie) (w : World) :
    (updateClickCount cfg movie w).2.faults <:+ w.faults := by
  unfold updateClickCount
  split
  · split
    · split
      · rw [catchAll_snd]
        exact updateClickCountBody_faults cfg _ _ w
      · exact List.suffix_refl _
    · exact List.suffix_refl _
  · exact List.suffix_refl _

theorem updateSearchCountBody_faults (cfg : Config) (K : String) (movie : Js Movie) (w : World) :
    (updateSearchCountBody cfg K movie w).2.faults <:+ w.faults := by
  unfold updateSearchCountBody
  split
  · next e w1 h => exact listDocuments_faults h
  · next rs w1 h =>
    have h1 := listDocuments_faults h
    split
    · next doc tl =>
      exact (updateDocument_faults (Prod.mk.eta).symm).trans h1
    · simp only [ID_unique]
      split
      · next d w3 h3 => exact (createDocument_faults h3).trans h1
      · next e w3 h3 =>
        have h3f := (createDocument_faults h3).trans h1
        split
        · split
          · next d w5 h5 => exact (createDocument_faults h5).trans h3f
          · next e w5 h5 => exact (createDocument_faults h5).trans h3f
        · exact h3f

theorem updateSearchCount_faults (cfg : Config) (K : String) (movie : Js Movie) (w : World) :
    (updateSearchCount cfg K movie w).2.faults <:+ w.faults := by
  unfold updateSearchCount
  rw [catchAll_snd]
  exact updateSearchCountBody_faults cfg K movie w

/-! ## Store calls under any outcome -/

theorem updateFirst_some {p : Doc → Bool} {f : Doc → Doc} {l l' : List Doc}
    (h : updateFirst p f l = some l') :
    ∃ pre e post, l = pre ++ e :: post ∧ (∀ x ∈ pre, p x = false) ∧ p e = true ∧
      l' = pre ++ f e :: post := by
  induction l generalizing l' with
  | nil => simp [updateFirst] at h
  | cons d ds ih =>
    unfold updateFirst at h
    by_cases hp : p d = true
    · simp only [hp, if_true, Option.some.injEq] at h
      exact ⟨[], d, ds, rfl, by simp, hp, by simp [h]⟩
    · simp only [hp] at h
      cases hu : updateFirst p f ds with
      | none => simp [hu] at h
      | some ds' =>
        simp only [hu, Bool.false_eq_true, if_false, Option.some.injEq] at h
        obtain ⟨pre, e, post, h1, h2, h3, h4⟩ := ih hu
        refine ⟨d :: pre, e, post, by simp [h1], ?_, h3, by simp [← h, h4]⟩
        intro x hx
        rcases List.mem_cons.1 hx with rfl | hx
        · simpa using hp
        · exact h2 x hx

theorem listDocuments_docs {coll : String} {qs : List Query} {w w1 : World}
    {r : Except Err (List Doc)} (h : listDocuments coll qs w = (r, w1)) :
    w1.docs = w.docs ∧ w1.nextId = w.nextId := by
  have h1 := request_docs w (.list coll qs)
  have h2 := request_nextId w (.list coll qs)
  unfold listDocuments at h
  split at h <;> simp_all

theorem listDocuments_ok {coll : String} {qs : List Query} {w w1 : World}
    {rs : List Doc} (h : listDocuments coll qs w = (.ok rs, w1)) :
    rs = selectDocs w.docs coll qs := by
  have h1 := request_docs w (.list coll qs)
  unfold listDocuments at h
  split at h
  · simp at h
  · next w2 hr =>
    simp only [Prod.mk.injEq, Except.ok.injEq] at h
    rw [hr] at h1
    simp only at h1
    rw [← h.1, h1]

theorem createDocument_error {coll : String} {id : Nat} {data : Fields} {w w1 : World}
    {e : Err} (h : createDocument coll id data w = (.error e, w1)) :
    w1.docs = w.docs ∧ w1.nextId = w.nextId := by
  have h1 := request_docs w (.create coll id data)
  have h2 := request_nextId w (.create coll id data)
  unfold createDocument at h
  split at h <;> simp_all

theorem createDocument_ok {coll : String} {id : Nat} {data : Fields} {w w1 : World}
    {d : Doc} (h : createDocument coll id data w = (.ok d, w1)) :
    w1.docs = w.docs ++ [data.toDoc coll id] ∧ w1.nextId = w.nextId := by
  have h1 := request_docs w (.create coll id data)
  have h2 := request_nextId w (.create coll id data)
  unfold createDocument at h
  split at h
  · simp at h
  · next w2 hr =>
    simp only [Prod.mk.injEq, Except.ok.injEq] at h
    rw [hr] at h1 h2
    simp only at h1 h2
    rw [← h.2]
    simp [h1, h2]

theorem updateDocument_docs {coll : String} {id : Nat} {data : Fields} {w w1 : World}
    {r : Except Err Unit} (h : updateDocument coll id data w = (r, w1)) :
    w1.nextId = w.nextId ∧
    (w1.docs = w.docs ∨
      ∃ pre e post, w.docs = pre ++ e :: post ∧
        (∀ x ∈ pre, ¬ (x.collectionId = coll ∧ x.id = id)) ∧
        e.collectionId = coll ∧ e.id = id ∧
        w1.docs = pre ++ e.patch data :: post) := by
  have h1 := request_docs w (.update coll id data)
  have h2 := request_nextId w (.update coll id data)
  unfold updateDocument at h
  split at h
  · next e w2 hr =>
    simp only [Prod.mk.injEq] at h
    rw [hr] at h1 h2
    simp only at h1 h2
    rw [← h.2]
    exact ⟨h2, Or.inl h1⟩
  · next w2 hr =>
    rw [hr] at h1 h2
    simp only at h1 h2
    split at h
    · next docs' hu =>
      simp only [Prod.mk.injEq] at h
      rw [← h.2]
      refine ⟨h2, Or.inr ?_⟩
      obtain ⟨pre, e, post, hs, hpre, he, hl⟩ := updateFirst_some hu
      simp only [Bool.and_eq_true, decide_eq_true_eq] at he
      refine ⟨pre, e, post, by rw [← h1, hs], ?_, he.1, he.2, hl⟩
      intro x hx hc
      have := hpre x hx
      simp [hc.1, hc.2] at this
    · simp only [Prod.mk.injEq] at h
      rw [← h.2]
      exact ⟨h2, Or.inl h1⟩

/-! ## Ranking -/

theorem descBy_count {x y : Doc} {cx cy : Int} (hx : x.count = .val cx) (hy : y.count = .val cy) :
    descBy .count x y ↔ cy ≤ cx := by
  simp [descBy, Doc.rank, Doc.attr, hx, hy, rankLe]

theorem selectDocs_ranking (w : World) (coll : String) :
    selectDocs w.docs coll [.orderDesc .count, .limit 5]
      = ((w.collection coll).insertionSort (descBy .count)).take 5 := by
  simp [selectDocs, orderOf, limitOf, World.collection, Query.passes]

theorem getTrendingMovies_of_healthy {cfg : Config} {w : World} (hw : w.healthy) :
    (getTrendingMovies cfg w).1
      = .ok (((w.collection (CLICKS_COLLECTION_ID cfg)).insertionSort (descBy .count)).take 5) := by
  simp [getTrendingMovies, listDocuments_of_healthy hw, selectDocs_ranking]


/-! ## The shape of one operation, under any outcome schedule -/

theorem updateDocument_patched {coll : String} {id : Nat} {data : Fields} {w w1 : World}
    {r : Except Err Unit} (h : updateDocument coll id data w = (r, w1)) :
    w1.docs = w.docs ∨ Patched coll id data w.docs w1.docs :=
  (updateDocument_docs h).2

theorem updateSearchCount_snd (cfg : Config) (K : String) (movie : Js Movie) (w : World) :
    (updateSearchCount cfg K movie w).2 = (updateSearchCountBody cfg K movie w).2 :=
  catchAll_snd _

theorem updateSearchCount_shape (cfg : Config) (K : String) (movie : Js Movie) (w : World) :
    (updateSearchCount cfg K movie w).2.docs = w.docs ∨
    (∃ d rest, selectDocs w.docs (COLLECTION_ID cfg) [.equal .searchTerm (.str K)] = d :: rest ∧
      Patched (COLLECTION_ID cfg) d.id (searchUpdate d movie) w.docs
        (updateSearchCount cfg K movie w).2.docs) ∨
    (selectDocs w.docs (COLLECTION_ID cfg) [.equal .searchTerm (.str K)] = [] ∧
      ∃ id, (updateSearchCount cfg K movie w).2.docs
        = w.docs ++ [(fullPayload K movie).toDoc (COLLECTION_ID cfg) id]) ∨
    (selectDocs w.docs (COLLECTION_ID cfg) [.equal .searchTerm (.str K)] = [] ∧
      ∃ id, (updateSearchCount cfg K movie w).2.docs
        = w.docs ++ [(minimalPayload K).toDoc (COLLECTION_ID cfg) id]) := by
  rw [updateSearchCount_snd]
  unfold updateSearchCountBody
  split
  · next e w1 h => exact Or.inl (listDocuments_docs h).1
  · next rs w1 h =>
    have hd := (listDocuments_docs h).1
    have hrs := listDocuments_ok h
    split
    · next doc tl =>
      rcases updateDocument_patched (Prod.mk.eta (p := updateDocument (COLLECTION_ID cfg) doc.id
          (searchUpdate doc movie) w1)).symm with hu | hu
      · exact Or.inl (hu.trans hd)
      · exact Or.inr (Or.inl ⟨doc, tl, hrs.symm, hd ▸ hu⟩)
    · simp only [ID_unique]
      split
      · next d w3 h3 =>
        refine Or.inr (Or.inr (Or.inl ⟨hrs.symm, w1.nextId, ?_⟩))
        rw [(createDocument_ok h3).1, hd]
      · next e w3 h3 =>
        have h3d : w3.docs = w.docs := by rw [(createDocument_error h3).1, hd]
        split
        · split
          · next d w5 h5 =>
            refine Or.inr (Or.inr (Or.inr ⟨hrs.symm, w3.nextId, ?_⟩))
            rw [(createDocument_ok h5).1, h3d]
          · next e w5 h5 =>
            left
            rw [(createDocument_error h5).1, h3d]
        · exact Or.inl h3d

theorem updateClickCount_shape (cfg : Config) (movie : Js Movie) (w : World) :
    (updateClickCount cfg movie w).2.docs = w.docs ∨
    ∃ m K, movie = .val m ∧ m.id = .val K ∧ K ≠ 0 ∧
    ((∃ d rest, selectDocs w.docs (CLICKS_COLLECTION_ID cfg) [.equal .movie_id (.num K)] = d :: rest ∧
      Patched (CLICKS_COLLECTION_ID cfg) d.id (clickUpdate d m) w.docs
        (updateClickCount cfg movie w).2.docs) ∨
    (selectDocs w.docs (CLICKS_COLLECTION_ID cfg) [.equal .movie_id (.num K)] = [] ∧
      ∃ id, (updateClickCount cfg movie w).2.docs
        = w.docs ++ [(clickCreate m).toDoc (CLICKS_COLLECTION_ID cfg) id])) := by
  unfold updateClickCount
  split
  · next m =>
    split
    · next K hK =>
      split
      · next hne =>
        have hne' : K ≠ 0 := by simpa using hne
        have key : (updateClickCountBody cfg m K w).2.docs = w.docs ∨
            ((∃ d rest, selectDocs w.docs (CLICKS_COLLECTION_ID cfg)
                [.equal .movie_id (.num K)] = d :: rest ∧
              Patched (CLICKS_COLLECTION_ID cfg) d.id (clickUpdate d m) w.docs
                (updateClickCountBody cfg m K w).2.docs) ∨
            (selectDocs w.docs (CLICKS_COLLECTION_ID cfg) [.equal .movie_id (.num K)] = [] ∧
              ∃ id, (updateClickCountBody cfg m K w).2.docs
                = w.docs ++ [(clickCreate m).toDoc (CLICKS_COLLECTION_ID cfg) id])) := by
          unfold updateClickCountBody
          split
          · next e w1 h => exact Or.inl (listDocuments_docs h).1
          · next rs w1 h =>
            have hd := (listDocuments_docs h).1
            have hrs := listDocuments_ok h
            split
            · next doc tl =>
              rcases updateDocument_patched (Prod.mk.eta (p := updateDocument
                  (CLICKS_COLLECTION_ID cfg) doc.id (clickUpdate doc m) w1)).symm with hu | hu
              · exact Or.inl (hu.trans hd)
              · exact Or.inr (Or.inl ⟨doc, tl, hrs.symm, hd ▸ hu⟩)
            · simp only [ID_unique]
              split
              · next d w3 h3 =>
                refine Or.inr (Or.inr ⟨hrs.symm, w1.nextId, ?_⟩)
                rw [(createDocument_ok h3).1, hd]
              · next e w3 h3 =>
                left
                rw [(createDocument_error h3).1, hd]
        rw [catchAll_snd]
        rcases key with h | h
        · exact Or.inl h
        · exact Or.inr ⟨m, K, rfl, hK, hne', h⟩
      · exact Or.inl rfl
    · exact Or.inl rfl
  · exact Or.inl rfl

theorem updatePosterUrl_shape (cfg : Config) (movieId : Js Int) (u : Js String) (w : World) :
    (updatePosterUrl cfg movieId u w).2.docs = w.docs ∨
    ∃ K url d rest, movieId = .val K ∧ u = .val url ∧
      selectDocs w.docs (CLICKS_COLLECTION_ID cfg) [.equal .movie_id (.num K)] = d :: rest ∧
      Patched (CLICKS_COLLECTION_ID cfg) d.id { poster_url := .val url } w.docs
        (updatePosterUrl cfg movieId u w).2.docs := by
  unfold updatePosterUrl
  split
  · next K url =>
    split
    · rw [catchAll_snd]
      unfold updatePosterUrlBody
      split
      · next e w1 h => exact Or.inl (listDocuments_docs h).1
      · next rs w1 h =>
        have hd := (listDocuments_docs h).1
        have hrs := listDocuments_ok h
        split
        · exact Or.inl hd
        · next doc tl =>
          split
          · exact Or.inl hd
          · rcases updateDocument_patched (Prod.mk.eta (p := updateDocument
                (CLICKS_COLLECTION_ID cfg) doc.id { poster_url := .val url } w1)).symm with hu | hu
            · exact Or.inl (hu.trans hd)
            · exact Or.inr ⟨K, url, doc, tl, rfl, rfl, hrs.symm, hd ▸ hu⟩
    · exact Or.inl rfl
  · exact Or.inl rfl

/-! ## A fresh document in a small ranking -/

theorem mem_ranking_of_small {w : World} {coll : String} {d : Doc}
    (hd : d ∈ w.collection coll) (hlen : (w.collection coll).length ≤ 5) :
    d ∈ ((w.collection coll).insertionSort (descBy .count)).take 5 := by
  have hp := List.perm_insertionSort (descBy .count) (w.collection coll)
  rw [List.take_of_length_le (by rw [hp.length_eq]; exact hlen)]
  exact hp.symm.subset hd

theorem trending_after_create {cfg : Config} {w w1 : World} {data : Fields} {id : Nat}
    (hw1 : w1.healthy)
    (hsmall : (w.collection (CLICKS_COLLECTION_ID cfg)).length < 5)
    (hdocs : w1.docs = w.docs ++ [data.toDoc (CLICKS_COLLECTION_ID cfg) id]) :
    ∃ top, (getTrendingMovies cfg w1).1 = .ok top ∧
      data.toDoc (CLICKS_COLLECTION_ID cfg) id ∈ top := by
  refine ⟨_, getTrendingMovies_of_healthy hw1, ?_⟩
  have hc : w1.collection (CLICKS_COLLECTION_ID cfg)
      = w.collection (CLICKS_COLLECTION_ID cfg) ++ [data.toDoc (CLICKS_COLLECTION_ID cfg) id] := by
    simp [World.collection, hdocs, List.filter_append, Fields.toDoc]
  apply mem_ranking_of_small
  · rw [hc]; simp
  · rw [hc]; simp; omega


/-! ## Key uniqueness, one call at a time -/

theorem selectDocs_equal (docs : List Doc) (coll : String) (a : Attr) (v : Value) :
    selectDocs docs coll [.equal a v]
      = docs.filter (fun d => decide (d.collectionId = coll) && decide (d.attr a = .val v)) := by
  simp [selectDocs, orderOf, limitOf, Query.passes]

theorem Patched.length_select {coll : String} {id : Nat} {data : Fields} {docs docs1 : List Doc}
    (h : Patched coll id data docs docs1) (c : String) (a : Attr) (v : Value)
    (hkeep : ∀ e : Doc, e.collectionId = coll → c = coll → (e.patch data).attr a = e.attr a) :
    (selectDocs docs1 c [.equal a v]).length = (selectDocs docs c [.equal a v]).length := by
  obtain ⟨pre, e, post, h1, -, h3, -, h5⟩ := h
  have hc : (e.patch data).collectionId = e.collectionId := rfl
  subst h1 h5
  simp only [selectDocs_equal, List.filter_append, List.filter_cons, List.length_append, hc]
  by_cases hcc : c = coll
  · rw [hkeep e h3 hcc]
    split <;> simp
  · have : ¬ e.collectionId = c := by rw [h3]; exact fun h => hcc h.symm
    simp [this]

theorem length_select_append (docs : List Doc) (d : Doc) (c : String) (a : Attr) (v : Value) :
    (selectDocs (docs ++ [d]) c [.equal a v]).length
      = (selectDocs docs c [.equal a v]).length
        + (if d.collectionId = c ∧ d.attr a = .val v then 1 else 0) := by
  simp only [selectDocs_equal, List.filter_append, List.length_append, List.filter_cons,
    List.filter_nil]
  by_cases h : d.collectionId = c ∧ d.attr a = .val v
  · simp [h]
  · rw [if_neg h]
    have : (decide (d.collectionId = c) && decide (d.attr a = Js.val v)) = false := by
      simpa using h
    simp [this]

theorem attr_patch_searchTerm (e : Doc) (data : Fields) (h : data.searchTerm = .undefined) :
    (e.patch data).attr .searchTerm = e.attr .searchTerm := by
  simp [Doc.attr, Doc.patch, merge, h]

theorem attr_patch_movie_id (e : Doc) (data : Fields) (h : data.movie_id = .undefined) :
    (e.patch data).attr .movie_id = e.attr .movie_id := by
  simp [Doc.attr, Doc.patch, merge, h]

theorem searchKeysUnique_step (cfg : Config) (op : Op) (w : World)
    (h : w.searchKeysUnique cfg) : (op.run cfg w).searchKeysUnique cfg := by
  intro k
  have hk := h k
  cases op with
  | search K movie =>
    simp only [Op.run]
    rcases updateSearchCount_shape cfg K movie w with hs | ⟨d, rest, -, hp⟩ | ⟨hn, id, hs⟩ |
      ⟨hn, id, hs⟩
    · rw [hs]; exact hk
    · rw [hp.length_select _ _ _ (fun e _ _ => attr_patch_searchTerm e _ rfl)]; exact hk
    · rw [hs, length_select_append]
      by_cases hkK : k = K
      · subst hkK; rw [hn]; simp; split <;> omega
      · have : ¬ (((fullPayload K movie).toDoc (COLLECTION_ID cfg) id).collectionId
            = COLLECTION_ID cfg ∧
            ((fullPayload K movie).toDoc (COLLECTION_ID cfg) id).attr .searchTerm
              = .val (.str k)) := by
          simp [Fields.toDoc, fullPayload, Doc.attr, stored]
          exact fun h => hkK h.symm
        rw [if_neg this]; exact hk
    · rw [hs, length_select_append]
      by_cases hkK : k = K
      · subst hkK; rw [hn]; simp; split <;> omega
      · have : ¬ (((minimalPayload K).toDoc (COLLECTION_ID cfg) id).collectionId
            = COLLECTION_ID cfg ∧
            ((minimalPayload K).toDoc (COLLECTION_ID cfg) id).attr .searchTerm
              = .val (.str k)) := by
          simp [Fields.toDoc, minimalPayload, Doc.attr, stored]
          exact fun h => hkK h.symm
        rw [if_neg this]; exact hk
  | click movie =>
    simp only [Op.run]
    rcases updateClickCount_shape cfg movie w with hs | ⟨m, K, -, -, -, ⟨d, rest, -, hp⟩ |
      ⟨hn, id, hs⟩⟩
    · rw [hs]; exact hk
    · rw [hp.length_select _ _ _ (fun e _ _ => attr_patch_searchTerm e _ rfl)]; exact hk
    · rw [hs, length_select_append]
      have : ¬ (((clickCreate m).toDoc (CLICKS_COLLECTION_ID cfg) id).collectionId
            = COLLECTION_ID cfg ∧
            ((clickCreate m).toDoc (CLICKS_COLLECTION_ID cfg) id).attr .searchTerm
              = .val (.str k)) := by
        simp [Fields.toDoc, clickCreate, Doc.attr, stored]
      rw [if_neg this]; exact hk
  | poster movieId url =>
    simp only [Op.run]
    rcases updatePosterUrl_shape cfg movieId url w with hs | ⟨K, u, d, rest, -, -, -, hp⟩
    · rw [hs]; exact hk
    · rw [hp.length_select _ _ _ (fun e _ _ => attr_patch_searchTerm e _ rfl)]; exact hk

theorem clickKeysUnique_step (cfg : Config) (op : Op) (w : World)
    (hsep : CLICKS_COLLECTION_ID cfg ≠ COLLECTION_ID cfg)
    (h : w.clickKeysUnique cfg) : (op.run cfg w).clickKeysUnique cfg := by
  intro k
  have hk := h k
  cases op with
  | search K movie =>
    simp only [Op.run]
    rcases updateSearchCount_shape cfg K movie w with hs | ⟨d, rest, -, hp⟩ | ⟨hn, id, hs⟩ |
      ⟨hn, id, hs⟩
    · rw [hs]; exact hk
    · rw [hp.length_select _ _ _ (fun e _ hc => absurd hc hsep)]; exact hk
    · rw [hs, length_select_append]
      have : ¬ (((fullPayload K movie).toDoc (COLLECTION_ID cfg) id).collectionId
            = CLICKS_COLLECTION_ID cfg ∧
            ((fullPayload K movie).toDoc (COLLECTION_ID cfg) id).attr .movie_id
              = .val (.num k)) := by
        intro hc; exact hsep hc.1.symm
      rw [if_neg this]; exact hk
    · rw [hs, length_select_append]
      have : ¬ (((minimalPayload K).toDoc (COLLECTION_ID cfg) id).collectionId
            = CLICKS_COLLECTION_ID cfg ∧
            ((minimalPayload K).toDoc (COLLECTION_ID cfg) id).attr .movie_id
              = .val (.num k)) := by
        intro hc; exact hsep hc.1.symm
      rw [if_neg this]; exact hk
  | click movie =>
    simp only [Op.run]
    rcases updateClickCount_shape cfg movie w with hs | ⟨m, K, -, hid, -, ⟨d, rest, -, hp⟩ |
      ⟨hn, id, hs⟩⟩
    · rw [hs]; exact hk
    · rw [hp.length_select _ _ _ (fun e _ _ => attr_patch_movie_id e _ rfl)]; exact hk
    · rw [hs, length_select_append]
      by_cases hkK : k = K
      · subst hkK; rw [hn]; simp; split <;> omega
      · have : ¬ (((clickCreate m).toDoc (CLICKS_COLLECTION_ID cfg) id).collectionId
            = CLICKS_COLLECTION_ID cfg ∧
            ((clickCreate m).toDoc (CLICKS_COLLECTION_ID cfg) id).attr .movie_id
              = .val (.num k)) := by
          simp [Fields.toDoc, clickCreate, Doc.attr, stored, hid]
          exact fun h => hkK h.symm
        rw [if_neg this]; exact hk
  | poster movieId url =>
    simp only [Op.run]
    rcases updatePosterUrl_shape cfg movieId url w with hs | ⟨K, u, d, rest, -, -, -, hp⟩
    · rw [hs]; exact hk
    · rw [hp.length_select _ _ _ (fun e _ _ => attr_patch_movie_id e _ rfl)]; exact hk

/-! ## Which stored poster a record may replace -/

theorem getElem?_append_of_some {l : List Doc} {i : Nat} {d : Doc} (new : Doc)
    (h : l[i]? = some d) : (l ++ [new])[i]? = some d := by
  have hi : i < l.length := by
    by_contra hc
    rw [List.getElem?_eq_none (by omega)] at h
    exact absurd h (by simp)
  rw [List.getElem?_append_left hi]; exact h

theorem Patched.getElem? {coll : String} {id : Nat} {data : Fields} {docs docs1 : List Doc}
    (h : Patched coll id data docs docs1)
    (hu : (docs.map (fun d : Doc => (d.collectionId, d.id))).Nodup)
    {found : Doc} (hmem : found ∈ docs) (hcoll : found.collectionId = coll)
    (hid : found.id = id) {i : Nat} {d : Doc} (hd : docs[i]? = some d) :
    docs1[i]? = some d ∨ (d = found ∧ docs1[i]? = some (found.patch data)) := by
  obtain ⟨pre, e, post, h1, -, h3, h4, h5⟩ := h
  have he : e = found := by
    apply List.inj_on_of_nodup_map hu
    · rw [h1]; simp
    · exact hmem
    · simp [h3, h4, hcoll, hid]
  subst h1 h5 he
  rcases Nat.lt_trichotomy i pre.length with hlt | heq | hgt
  · left
    rw [List.getElem?_append_left hlt] at hd ⊢
    exact hd
  · right
    subst heq
    rw [List.getElem?_append_right (Nat.le_refl _)] at hd ⊢
    simp only [Nat.sub_self, List.getElem?_cons_zero, Option.some.injEq] at hd ⊢
    exact ⟨hd.symm, trivial⟩
  · left
    rw [List.getElem?_append_right (by omega)] at hd ⊢
    obtain ⟨k, hk⟩ : ∃ k, i - pre.length = k + 1 := ⟨i - pre.length - 1, by omega⟩
    rw [hk] at hd ⊢
    simpa using hd

theorem selectDocs_equal_head_mem {docs : List Doc} {coll : String} {a : Attr} {v : Value}
    {d : Doc} {rest : List Doc} (h : selectDocs docs coll [.equal a v] = d :: rest) :
    d ∈ docs ∧ d.collectionId = coll := by
  obtain ⟨pre, post, h1, -, h3, -⟩ := selectDocs_equal_cons h
  exact ⟨by rw [h1]; simp, h3⟩

theorem searchUpdate_poster (d : Doc) (movie : Js Movie)
    (h : (d.patch (searchUpdate d movie)).poster_url ≠ d.poster_url) :
    truthyStr (Movie.poster_path? movie) = true ∧
      (truthyStr d.poster_url = false ∨ urlIncludes d.poster_url "placeholder.com" = true ∨
        urlIncludes d.poster_url "No+Image" = true) := by
  by_contra hc
  apply h
  have hp : truthyStr (posterOf (Movie.poster_path? movie)) = true →
      truthyStr (Movie.poster_path? movie) = true := by
    cases hm : Movie.poster_path? movie with
    | undefined => simp [posterOf, truthyStr]
    | null => simp [posterOf, truthyStr]
    | val p => by_cases hpe : p = "" <;> simp [posterOf, truthyStr, hpe]
  simp only [Doc.patch, searchUpdate]
  split
  · next hn =>
    exfalso; apply hc
    simp only [Bool.and_eq_true, Bool.or_eq_true, Bool.not_eq_true'] at hn
    exact ⟨hp hn.1, by tauto⟩
  · rfl

theorem clickUpdate_poster (d : Doc) (m : Movie)
    (h : (d.patch (clickUpdate d m)).poster_url ≠ d.poster_url) :
    truthyStr m.poster_path = true ∧
      (truthyStr d.poster_url = false ∨ urlIncludes d.poster_url "placeholder.com" = true ∨
        urlIncludes d.poster_url "No+Image" = true ∨
        urlEndsWith d.poster_url "/no-movie.png" = true) := by
  by_contra hc
  apply h
  have hp : truthyStr (posterOf m.poster_path) = true → truthyStr m.poster_path = true := by
    cases hm : m.poster_path with
    | undefined => simp [posterOf, truthyStr]
    | null => simp [posterOf, truthyStr]
    | val p => by_cases hpe : p = "" <;> simp [posterOf, truthyStr, hpe]
  simp only [Doc.patch, clickUpdate]
  split
  · next hn =>
    exfalso; apply hc
    simp only [Bool.and_eq_true, Bool.or_eq_true, Bool.not_eq_true'] at hn
    exact ⟨hp hn.1, by tauto⟩
  · rfl

theorem truthyStr_posterOf {p : Js String} (h : truthyStr p = true) :
    truthyStr (posterOf p) = true ∧ ∃ s, p = .val s ∧ s ≠ "" ∧
      posterOf p = .val ("https://image.tmdb.org/t/p/w500/" ++ s) := by
  cases p with
  | undefined => simp [truthyStr] at h
  | null => simp [truthyStr] at h
  | val s =>
    have hs : s ≠ "" := by simpa [truthyStr] using h
    refine ⟨?_, s, rfl, hs, by simp [posterOf, hs]⟩
    have hne : "https://image.tmdb.org/t/p/w500/" ++ s ≠ "" := by
      intro hc
      have := congrArg String.length hc
      simp [String.length_append] at this
      exact absurd this.1 (by decide)
    simp [posterOf, hs, truthyStr, hne]

/-- The click path: an event with a poster replaces an empty,
placeholder or sentinel poster. -/
theorem clickUpdate_upgrades (d : Doc) (m : Movie) (hp : truthyStr m.poster_path = true)
    (hc : truthyStr d.poster_url = false ∨ urlIncludes d.poster_url "placeholder.com" = true ∨
      urlIncludes d.poster_url "No+Image" = true ∨ d.poster_url = .val "/no-movie.png") :
    (d.patch (clickUpdate d m)).poster_url = posterOf m.poster_path := by
  obtain ⟨ht, s, hs, hne, hv⟩ := truthyStr_posterOf hp
  have hcond : (!truthyStr d.poster_url || urlIncludes d.poster_url "placeholder.com"
      || urlIncludes d.poster_url "No+Image" || urlEndsWith d.poster_url "/no-movie.png") = true := by
    rcases hc with h | h | h | h
    · simp [h]
    · simp [h]
    · simp [h]
    · have : urlEndsWith d.poster_url "/no-movie.png" = true := by rw [h]; decide
      simp [this]
  simp only [Doc.patch, clickUpdate, ht, hcond, Bool.and_self, if_true]
  rw [hv]; rfl

/-- The search path: an event with a poster replaces an empty
or placeholder poster (the sentinel is not among its cases). -/
theorem searchUpdate_upgrades (d : Doc) (movie : Js Movie)
    (hp : truthyStr (Movie.poster_path? movie) = true)
    (hc : truthyStr d.poster_url = false ∨ urlIncludes d.poster_url "placeholder.com" = true ∨
      urlIncludes d.poster_url "No+Image" = true) :
    (d.patch (searchUpdate d movie)).poster_url = posterOf (Movie.poster_path? movie) := by
  obtain ⟨ht, s, hs, hne, hv⟩ := truthyStr_posterOf hp
  have hcond : (!truthyStr d.poster_url || urlIncludes d.poster_url "placeholder.com"
      || urlIncludes d.poster_url "No+Image") = true := by
    rcases hc with h | h | h
    · simp [h]
    · simp [h]
    · simp [h]
  simp only [Doc.patch, searchUpdate, ht, hcond, Bool.and_self, if_true]
  rw [hv]; rfl

/-! ## Well-formed stores -/

theorem Patched.map_key {coll : String} {id : Nat} {data : Fields} {docs docs1 : List Doc}
    (h : Patched coll id data docs docs1) :
    docs1.map (fun d : Doc => (d.collectionId, d.id))
      = docs.map (fun d : Doc => (d.collectionId, d.id)) := by
  obtain ⟨pre, e, post, h1, -, -, -, h5⟩ := h
  subst h1 h5
  simp [Doc.patch]

theorem Patched.map_id {coll : String} {id : Nat} {data : Fields} {docs docs1 : List Doc}
    (h : Patched coll id data docs docs1) :
    docs1.map (fun d : Doc => d.id) = docs.map (fun d : Doc => d.id) := by
  obtain ⟨pre, e, post, h1, -, -, -, h5⟩ := h
  subst h1 h5
  simp [Doc.patch]

theorem Evolves.wellFormed {w w1 : World} (h : Evolves w w1) (hw : w.wellFormed) :
    w1.wellFormed := by
  obtain ⟨hn, hs | ⟨coll, id, data, hp⟩ | ⟨coll, id, data, h1, h2, hs⟩⟩ := h
  · refine ⟨?_, ?_⟩
    · unfold World.idsUnique; rw [hs]; exact hw.1
    · intro d hd; rw [hs] at hd; exact lt_of_lt_of_le (hw.2 d hd) hn
  · refine ⟨?_, ?_⟩
    · unfold World.idsUnique; rw [hp.map_key]; exact hw.1
    · intro d hd
      have : d.id ∈ w1.docs.map (fun d : Doc => d.id) := List.mem_map_of_mem _ hd
      rw [hp.map_id] at this
      obtain ⟨d0, hd0, he⟩ := List.mem_map.1 this
      rw [← he]
      exact lt_of_lt_of_le (hw.2 d0 hd0) hn
  · refine ⟨?_, ?_⟩
    · unfold World.idsUnique
      rw [hs, List.map_append, List.nodup_append]
      refine ⟨hw.1, by simp, ?_⟩
      intro k hk1 hk2
      obtain ⟨d0, hd0, he⟩ := List.mem_map.1 hk1
      simp only [List.map_cons, List.map_nil, List.mem_singleton] at hk2
      have := hw.2 d0 hd0
      rw [hk2] at he
      have hid : d0.id = id := by
        have := congrArg Prod.snd he
        simpa [Fields.toDoc] using this
      omega
    · intro d hd
      rw [hs] at hd
      rcases List.mem_append.1 hd with hd | hd
      · exact lt_of_lt_of_le (hw.2 d hd) hn
      · simp only [List.mem_singleton] at hd
        subst hd
        exact h2

theorem updatePosterUrl_snd_nextId (cfg : Config) (movieId : Js Int) (u : Js String) (w : World) :
    (updatePosterUrl cfg movieId u w).2.nextId = w.nextId := by
  unfold updatePosterUrl
  split
  · split
    · rw [catchAll_snd]
      unfold updatePosterUrlBody
      split
      · next e w1 h => exact (listDocuments_docs h).2
      · next rs w1 h =>
        have hn := (listDocuments_docs h).2
        split
        · exact hn
        · split
          · exact hn
          · exact ((updateDocument_docs (Prod.mk.eta).symm).1).trans hn
    · rfl
  · rfl

theorem updateSearchCount_evolves (cfg : Config) (K : String) (movie : Js Movie) (w : World) :
    Evolves w (updateSearchCount cfg K movie w).2 := by
  rw [updateSearchCount_snd]
  unfold updateSearchCountBody
  split
  · next e w1 h =>
    obtain ⟨hd, hn⟩ := listDocuments_docs h
    exact ⟨by simp only [hn, le_refl], Or.inl hd⟩
  · next rs w1 h =>
    obtain ⟨hd, hn⟩ := listDocuments_docs h
    split
    · next doc tl =>
      obtain ⟨hn2, hu⟩ := updateDocument_docs (Prod.mk.eta (p := updateDocument (COLLECTION_ID cfg)
        doc.id (searchUpdate doc movie) w1)).symm
      refine ⟨by rw [hn2, hn], ?_⟩
      rcases hu with hu | hu
      · exact Or.inl (hu.trans hd)
      · exact Or.inr (Or.inl ⟨_, _, _, hd ▸ hu⟩)
    · simp only [ID_unique]
      split
      · next d w3 h3 =>
        obtain ⟨h3d, h3n⟩ := createDocument_ok h3
        simp only at h3d h3n
        show Evolves w w3
        refine ⟨by omega, Or.inr (Or.inr ⟨COLLECTION_ID cfg, w1.nextId, fullPayload K movie, by omega, by omega, ?_⟩)⟩
        rw [h3d, hd]
      · next e w3 h3 =>
        obtain ⟨h3d, h3n⟩ := createDocument_error h3
        simp only at h3d h3n
        split
        · split
          · next d w5 h5 =>
            obtain ⟨h5d, h5n⟩ := createDocument_ok h5
            simp only at h5d h5n
            show Evolves w w5
            refine ⟨by omega, Or.inr (Or.inr ⟨COLLECTION_ID cfg, w3.nextId, minimalPayload K, by omega, by omega, ?_⟩)⟩
            rw [h5d, h3d, hd]
          · next e w5 h5 =>
            obtain ⟨h5d, h5n⟩ := createDocument_error h5
            simp only at h5d h5n
            show Evolves w w5
            exact ⟨by omega, Or.inl (by rw [h5d, h3d, hd])⟩
        · show Evolves w w3
          exact ⟨by omega, Or.inl (by rw [h3d, hd])⟩

theorem updateClickCount_evolves (cfg : Config) (movie : Js Movie) (w : World) :
    Evolves w (updateClickCount cfg movie w).2 := by
  have hrefl : Evolves w w := ⟨le_refl _, Or.inl rfl⟩
  unfold updateClickCount
  split
  · next m =>
    split
    · next K hK =>
      split
      · rw [catchAll_snd]
        unfold updateClickCountBody
        split
        · next e w1 h =>
          obtain ⟨hd, hn⟩ := listDocuments_docs h
          exact ⟨by simp only [hn, le_refl], Or.inl hd⟩
        · next rs w1 h =>
          obtain ⟨hd, hn⟩ := listDocuments_docs h
          split
          · next doc tl =>
            obtain ⟨hn2, hu⟩ := updateDocument_docs (Prod.mk.eta (p := updateDocument
              (CLICKS_COLLECTION_ID cfg) doc.id (clickUpdate doc m) w1)).symm
            refine ⟨by rw [hn2, hn], ?_⟩
            rcases hu with hu | hu
            · exact Or.inl (hu.trans hd)
            · exact Or.inr (Or.inl ⟨_, _, _, hd ▸ hu⟩)
          · simp only [ID_unique]
            split
            · next d w3 h3 =>
              obtain ⟨h3d, h3n⟩ := createDocument_ok h3
              simp only at h3d h3n
              show Evolves w w3
              refine ⟨by omega, Or.inr (Or.inr ⟨CLICKS_COLLECTION_ID cfg, w1.nextId, clickCreate m, by omega, by omega, ?_⟩)⟩
              rw [h3d, hd]
            · next e w3 h3 =>
              obtain ⟨h3d, h3n⟩ := createDocument_error h3
              simp only at h3d h3n
              show Evolves w w3
              exact ⟨by omega, Or.inl (by rw [h3d, hd])⟩
      · exact hrefl
    · exact hrefl
  · exact hrefl

theorem updatePosterUrl_evolves (cfg : Config) (movieId : Js Int) (u : Js String) (w : World) :
    Evolves w (updatePosterUrl cfg movieId u w).2 := by
  refine ⟨by rw [updatePosterUrl_snd_nextId], ?_⟩
  rcases updatePosterUrl_shape cfg movieId u w with h | ⟨K, url, d, rest, -, -, -, hp⟩
  · exact Or.inl h
  · exact Or.inr (Or.inl ⟨_, _, _, hp⟩)

theorem Op.run_wellFormed (cfg : Config) (op : Op) {w : World} (hw : w.wellFormed) :
    (op.run cfg w).wellFormed := by
  cases op with
  | search K movie => exact (updateSearchCount_evolves cfg K movie w).wellFormed hw
  | click movie => exact (updateClickCount_evolves cfg movie w).wellFormed hw
  | poster movieId url => exact (updatePosterUrl_evolves cfg movieId url w).wellFormed hw

/-- Every store reached from a well-formed one is well-formed. -/
theorem runAll_wellFormed (cfg : Config) (ops : List Op) {w : World} (hw : w.wellFormed) :
    (runAll cfg ops w).wellFormed := by
  induction ops generalizing w with
  | nil => exact hw
  | cons op ops ih => exact ih (Op.run_wellFormed cfg op hw)

/-- The empty store is well-formed, whatever its outcome schedule. -/
theorem wellFormed_empty (fs : List (Option Err)) : World.wellFormed { faults := fs } :=
  ⟨List.nodup_nil, fun _ h => absurd h (List.not_mem_nil _)⟩

/-! ## The poster-only refresh -/

theorem listDocuments_calls {coll : String} {qs : List Query} {w w1 : World}
    {r : Except Err (List Doc)} (h : listDocuments coll qs w = (r, w1)) :
    w1.calls = w.calls ++ [.list coll qs] := by
  have h1 : (w.request (.list coll qs)).2.calls = w.calls ++ [.list coll qs] := by
    unfold World.request; split <;> rfl
  unfold listDocuments at h
  split at h <;> simp_all

theorem updatePosterUrl_guard (cfg : Config) (M : Int) (url : String) (w : World)
    (h : M = 0 ∨ url = "") : updatePosterUrl cfg (.val M) (.val url) w = (.ok (), w) := by
  rcases h with h | h <;> simp [updatePosterUrl, h]

/-! ## The requests a record issues -/

theorem request_calls (w : World) (c : Call) : (w.request c).2.calls = w.calls ++ [c] := by
  unfold World.request; split <;> rfl

theorem Patched.split_found {coll : String} {data : Fields} {docs docs1 : List Doc} {found : Doc}
    (h : Patched coll found.id data docs docs1)
    (hu : (docs.map (fun d : Doc => (d.collectionId, d.id))).Nodup)
    (hmem : found ∈ docs) (hcoll : found.collectionId = coll) :
    ∃ pre post, docs = pre ++ found :: post ∧ docs1 = pre ++ found.patch data :: post := by
  obtain ⟨pre, e, post, h1, -, h3, h4, h5⟩ := h
  have he : e = found := by
    apply List.inj_on_of_nodup_map hu
    · rw [h1]; simp
    · exact hmem
    · simp [h3, h4, hcoll]
  subst he
  exact ⟨pre, post, h1, h5⟩

theorem updateSearchCount_existing_calls {cfg : Config} {w : World} {K : String}
    (movie : Js Movie) {d : Doc} {rest : List Doc} (hw : w.healthy) (hu : w.idsUnique)
    (hfind : selectDocs w.docs (COLLECTION_ID cfg) [.equal .searchTerm (.str K)] = d :: rest) :
    (updateSearchCount cfg K movie w).2.calls = w.calls ++
      [.list (COLLECTION_ID cfg) [.equal .searchTerm (.str K)],
       .update (COLLECTION_ID cfg) d.id (searchUpdate d movie)] := by
  obtain ⟨pre, post, hs, -, hc, -⟩ := selectDocs_equal_cons hfind
  have hw1 := request_healthy hw (.list (COLLECTION_ID cfg) [.equal .searchTerm (.str K)])
  have hd1 := request_docs w (.list (COLLECTION_ID cfg) [.equal .searchTerm (.str K)])
  have hup := updateFirst_of_unique (fun x => x.patch (searchUpdate d movie)) hu hs
  rw [hc, ← hd1] at hup
  have := updateDocument_of_healthy hw1 (COLLECTION_ID cfg) d.id (searchUpdate d movie) _ hup
  simp [updateSearchCount, catchAll, updateSearchCountBody, listDocuments_of_healthy hw, hfind,
    this, request_calls]

theorem updateClickCount_existing_calls {cfg : Config} {w : World} {m : Movie} {K : Int}
    {d : Doc} {rest : List Doc} (hw : w.healthy) (hu : w.idsUnique)
    (hid : m.id = .val K) (hK : K ≠ 0)
    (hfind : selectDocs w.docs (CLICKS_COLLECTION_ID cfg) [.equal .movie_id (.num K)] = d :: rest) :
    (updateClickCount cfg (.val m) w).2.calls = w.calls ++
      [.list (CLICKS_COLLECTION_ID cfg) [.equal .movie_id (.num K)],
       .update (CLICKS_COLLECTION_ID cfg) d.id (clickUpdate d m)] := by
  obtain ⟨pre, post, hs, -, hc, -⟩ := selectDocs_equal_cons hfind
  have hw1 := request_healthy hw (.list (CLICKS_COLLECTION_ID cfg) [.equal .movie_id (.num K)])
  have hd1 := request_docs w (.list (CLICKS_COLLECTION_ID cfg) [.equal .movie_id (.num K)])
  have hup := updateFirst_of_unique (fun x => x.patch (clickUpdate d m)) hu hs
  rw [hc, ← hd1] at hup
  have := updateDocument_of_healthy hw1 (CLICKS_COLLECTION_ID cfg) d.id (clickUpdate d m) _ hup
  simp [updateClickCount, catchAll, updateClickCountBody, hid, hK, listDocuments_of_healthy hw,
    hfind, this, request_calls]

theorem merge_self {α : Type} (a : Js α) : merge a a = a := by
  cases a <;> rfl

/-! ## The answers of the read endpoint -/

theorem handlerBody_cases (parseURL : String → Except Err String)
    (fetch : StoreRequest → FetchResult) (env : Env) :
    (env.misconfigured = true ∧ handlerBody parseURL fetch env
      = .ok { status := 500, body := .error (.val "Server misconfiguration") .undefined }) ∨
    (env.misconfigured = false ∧ ∃ err, handlerBody parseURL fetch env = .error err) ∨
    (env.misconfigured = false ∧ ∃ href status text json t,
      parseURL (documentsUrl env) = .ok href ∧
      fetch (storeRequest env href) = .response status text json ∧ statusOk status = false ∧
      handlerBody parseURL fetch env
        = .ok { status := status, body := .error (.val "Appwrite error") (.val t) }) ∨
    (env.misconfigured = false ∧ ∃ href status text data,
      parseURL (documentsUrl env) = .ok href ∧
      fetch (storeRequest env href) = .response status text (.ok (.val data)) ∧
      statusOk status = true ∧
      handlerBody parseURL fetch env
        = .ok { status := 200, body := .documents (orEmpty data.documents) }) := by
  by_cases hm : env.misconfigured = true
  · exact Or.inl ⟨hm, by simp [handlerBody, hm]⟩
  · have hm0 : env.misconfigured = false := by simpa using hm
    right
    cases hp : parseURL (documentsUrl env) with
    | error err => exact Or.inl ⟨hm0, err, by simp [handlerBody, hm0, hp]⟩
    | ok href =>
      cases hf : fetch (storeRequest env href) with
      | rejected err => exact Or.inl ⟨hm0, err, by simp [handlerBody, hm0, hp, hf]⟩
      | response status text json =>
        by_cases hs : statusOk status = true
        · cases json with
          | error err => exact Or.inl ⟨hm0, err, by simp [handlerBody, hm0, hp, hf, hs]⟩
          | ok data =>
            cases data with
            | undefined => exact Or.inl ⟨hm0, nullData, by simp [handlerBody, hm0, hp, hf, hs]⟩
            | null => exact Or.inl ⟨hm0, nullData, by simp [handlerBody, hm0, hp, hf, hs]⟩
            | val data =>
              exact Or.inr (Or.inr ⟨hm0, href, status, text, data, rfl, hf, hs,
                by simp [handlerBody, hm0, hp, hf, hs]⟩)
        · have hs0 : statusOk status = false := by simpa using hs
          cases text with
          | error err => exact Or.inl ⟨hm0, err, by simp [handlerBody, hm0, hp, hf, hs0]⟩
          | ok t =>
            exact Or.inr (Or.inl ⟨hm0, href, status, .ok t, json, t, rfl, hf, hs0,
              by simp [handlerBody, hm0, hp, hf, hs0]⟩)

/-! ## Verified claims -/

/-- C2: for every search term `K` with no existing document and every chosen
movie, a successful `updateSearchCount(K, movie)` adds exactly one document, in
the search collection, with key `K`, count 1, the movie's id and title (an
absent one is stored as null), and as poster the image base URL followed by the
movie's poster path when the movie carries a non-empty one, the sentinel
`/no-movie.png` otherwise. -/
theorem C2_search_creates_document (cfg : Config) (w : World) (K : String) (movie : Movie)
    (hw : w.healthy)
    (hnone : selectDocs w.docs (COLLECTION_ID cfg) [.equal .searchTerm (.str K)] = []) :
    ∃ doc, (updateSearchCount cfg K (.val movie) w).2.docs = w.docs ++ [doc] ∧
      doc.collectionId = COLLECTION_ID cfg ∧
      doc.searchTerm = .val K ∧ doc.count = .val 1 ∧
      doc.movie_id = stored movie.id ∧ doc.title = stored movie.title ∧
      (∀ p, movie.poster_path = .val p → p ≠ "" →
        doc.poster_url = .val ("https://image.tmdb.org/t/p/w500/" ++ p)) ∧
      (truthyStr movie.poster_path = false → doc.poster_url = .val "/no-movie.png") := by
  refine ⟨_, updateSearchCount_fresh _ hw hnone, rfl, rfl, rfl, rfl, rfl, ?_, ?_⟩
  · intro p hp hne
    simp [Fields.toDoc, fullPayload, Movie.poster_path?, posterOf, hp, hne, stored]
  · intro ht
    cases hp : movie.poster_path with
    | undefined => simp [Fields.toDoc, fullPayload, Movie.poster_path?, posterOf, hp, stored]
    | null => simp [Fields.toDoc, fullPayload, Movie.poster_path?, posterOf, hp, stored]
    | val p =>
      have : p = "" := by simpa [truthyStr, hp] using ht
      simp [Fields.toDoc, fullPayload, Movie.poster_path?, posterOf, hp, this, stored]

/-- Witness of C2: the scenario of the specification, the term dune recorded on
an empty collection. -/
theorem C2_search_creates_document_witness :
    ({} : World).healthy ∧
    selectDocs ({} : World).docs (COLLECTION_ID cfgSplit) [.equal .searchTerm (.str "dune")] = [] ∧
    (updateSearchCount cfgSplit "dune" (.val dune) {}).2.docs =
      [{ searchTerm := .val "dune", movie_id := .val 438631, count := .val 1, title := .val "Dune"
         poster_url := .val "https://image.tmdb.org/t/p/w500//abc.jpg"
         vote_average := .null, release_date := .null, original_language := .null
         id := 0, collectionId := "metrics" }] ∧
    ∃ doc, (updateSearchCount cfgSplit "dune" (.val dune) {}).2.docs = [] ++ [doc] ∧
      doc.collectionId = COLLECTION_ID cfgSplit ∧
      doc.searchTerm = .val "dune" ∧ doc.count = .val 1 ∧
      doc.movie_id = stored dune.id ∧ doc.title = stored dune.title ∧
      (∀ p, dune.poster_path = .val p → p ≠ "" →
        doc.poster_url = .val ("https://image.tmdb.org/t/p/w500/" ++ p)) ∧
      (truthyStr dune.poster_path = false → doc.poster_url = .val "/no-movie.png") :=
  ⟨by decide, by decide, by decide,
    C2_search_creates_document cfgSplit {} "dune" dune (by decide) (by decide)⟩

/-- Counterexample to C3 as stated: with five click counters at count 2, a
click on a movie without counter is recorded but `getTrendingMovies`, bounded to
5 documents, does not return it; and with a separate click collection a recorded
search term never appears in the ranking. -/
theorem C3_fresh_record_counterexample :
    crowdedWorld.healthy ∧
    selectDocs crowdedWorld.docs (CLICKS_COLLECTION_ID cfgSplit)
      [.equal .movie_id (.num 438631)] = [] ∧
    (∃ top, (getTrendingMovies cfgSplit (updateClickCount cfgSplit (.val dune) crowdedWorld).2).1
        = .ok top ∧ ∀ d ∈ top, d.movie_id ≠ .val 438631) ∧
    selectDocs ({} : World).docs (COLLECTION_ID cfgSplit)
      [.equal .searchTerm (.str "dune")] = [] ∧
    (getTrendingMovies cfgSplit (updateSearchCount cfgSplit "dune" (.val dune) {}).2).1
      = .ok [] :=
  ⟨by decide, by decide, ⟨_, rfl, by decide⟩, by decide, rfl⟩

/-- C3 (amended): when every store call succeeds and the click collection holds
fewer than 5 documents, a click record for a movie with a non-zero identifier `K`
that has no counter document, followed immediately by `getTrendingMovies`,
returns a sequence that includes a document for `K` with count 1; a search record
for a term without counter document is included likewise when the click
collection is the search collection (the fallback of line 7). -/
theorem C3_fresh_record_in_small_ranking (cfg : Config) (w : World) (hw : w.healthy)
    (hsmall : (w.collection (CLICKS_COLLECTION_ID cfg)).length < 5) :
    (∀ (m : Movie) (K : Int), m.id = .val K → K ≠ 0 →
      selectDocs w.docs (CLICKS_COLLECTION_ID cfg) [.equal .movie_id (.num K)] = [] →
      ∃ top d, (getTrendingMovies cfg (updateClickCount cfg (.val m) w).2).1 = .ok top ∧
        d ∈ top ∧ d.movie_id = .val K ∧ d.count = .val 1) ∧
    (∀ (K : String) (movie : Js Movie), CLICKS_COLLECTION_ID cfg = COLLECTION_ID cfg →
      selectDocs w.docs (COLLECTION_ID cfg) [.equal .searchTerm (.str K)] = [] →
      ∃ top d, (getTrendingMovies cfg (updateSearchCount cfg K movie w).2).1 = .ok top ∧
        d ∈ top ∧ d.searchTerm = .val K ∧ d.count = .val 1) := by
  constructor
  · intro m K hid hK hnone
    have hw1 := healthy_of_suffix (updateClickCount_faults cfg (.val m) w) hw
    obtain ⟨top, h1, h2⟩ := trending_after_create hw1 hsmall (updateClickCount_fresh hw hid hK hnone)
    exact ⟨top, _, h1, h2, by simp [Fields.toDoc, clickCreate, hid, stored],
      by simp [Fields.toDoc, clickCreate, stored]⟩
  · intro K movie hsh hnone
    have hw1 := healthy_of_suffix (updateSearchCount_faults cfg K movie w) hw
    have hf := updateSearchCount_fresh movie hw hnone
    rw [← hsh] at hf
    obtain ⟨top, h1, h2⟩ := trending_after_create hw1 hsmall hf
    exact ⟨top, _, h1, h2, by simp [Fields.toDoc, fullPayload, stored],
      by simp [Fields.toDoc, fullPayload, stored]⟩

/-- Witness of C3 (amended): a click on Dune in a click collection of four
counters, and a search for dune when clicks share the search collection. -/
theorem C3_fresh_record_in_small_ranking_witness :
    rankingWorld.healthy ∧
    (rankingWorld.collection (CLICKS_COLLECTION_ID cfgSplit)).length < 5 ∧
    (∃ top d, (getTrendingMovies cfgSplit (updateClickCount cfgSplit (.val dune) rankingWorld).2).1
        = .ok top ∧ d ∈ top ∧ d.movie_id = .val 438631 ∧ d.count = .val 1) ∧
    (∃ top d, (getTrendingMovies cfgShared (updateSearchCount cfgShared "dune" (.val dune) {}).2).1
        = .ok top ∧ d ∈ top ∧ d.searchTerm = .val "dune" ∧ d.count = .val 1) :=
  ⟨by decide, by decide,
    (C3_fresh_record_in_small_ranking cfgSplit rankingWorld (by decide) (by decide)).1
      dune 438631 rfl (by decide) (by decide),
    (C3_fresh_record_in_small_ranking cfgShared {} (by decide) (by decide)).2
      "dune" (.val dune) (by decide) (by decide)⟩

/-- Counterexample to C4 as stated: when clicks fall back to the search
collection, two searches that choose the same movie leave two documents with
that `movie_id` in the click collection, although the empty store held at most
one document per key. -/
theorem C4_key_uniqueness_counterexample :
    World.searchKeysUnique cfgShared {} ∧ World.clickKeysUnique cfgShared {} ∧
    ¬ World.clickKeysUnique cfgShared
        (runAll cfgShared [.search "a" (.val dune), .search "b" (.val dune)] {}) :=
  ⟨fun _ => Nat.zero_le _, fun _ => Nat.zero_le _, fun h => absurd (h 438631) (by decide)⟩

/-- C4 (amended): key uniqueness is an invariant of the sequential step
relation. Under every outcome schedule, any finite sequence of awaited
`updateSearchCount`, `updateClickCount` and `updatePosterUrl` calls keeps at most
one document per search term in the search collection and, when the click
collection is configured apart from the search collection, at most one document
per movie identifier in the click collection. -/
theorem C4_key_uniqueness_invariant (cfg : Config) (ops : List Op) (w : World) :
    (w.searchKeysUnique cfg → (runAll cfg ops w).searchKeysUnique cfg) ∧
    (CLICKS_COLLECTION_ID cfg ≠ COLLECTION_ID cfg → w.clickKeysUnique cfg →
      (runAll cfg ops w).clickKeysUnique cfg) := by
  induction ops generalizing w with
  | nil => exact ⟨fun h => h, fun _ h => h⟩
  | cons op ops ih =>
    refine ⟨fun h => ?_, fun hsep h => ?_⟩
    · exact (ih (op.run cfg w)).1 (searchKeysUnique_step cfg op w h)
    · exact (ih (op.run cfg w)).2 hsep (clickKeysUnique_step cfg op w hsep h)

/-- Witness of C4 (amended): two searches, two clicks and a poster refresh on an
empty store with a separate click collection. -/
theorem C4_key_uniqueness_invariant_witness :
    World.searchKeysUnique cfgSplit {} ∧
    CLICKS_COLLECTION_ID cfgSplit ≠ COLLECTION_ID cfgSplit ∧
    World.clickKeysUnique cfgSplit {} ∧
    World.searchKeysUnique cfgSplit
      (runAll cfgSplit [.search "a" (.val dune), .search "b" (.val dune), .click (.val dune),
        .click (.val dune), .poster (.val 438631) (.val "https://img/real.jpg")] {}) ∧
    World.clickKeysUnique cfgSplit
      (runAll cfgSplit [.search "a" (.val dune), .search "b" (.val dune), .click (.val dune),
        .click (.val dune), .poster (.val 438631) (.val "https://img/real.jpg")] {}) :=
  ⟨fun _ => Nat.zero_le _, by decide, fun _ => Nat.zero_le _,
    (C4_key_uniqueness_invariant cfgSplit _ {}).1 (fun _ => Nat.zero_le _),
    (C4_key_uniqueness_invariant cfgSplit _ {}).2 (by decide) (fun _ => Nat.zero_le _)⟩

/-- C5, evaluated where the code departs from it: the stored poster of both
counters is the sentinel `/no-movie.png` and the event carries a poster;
`updateSearchCount` raises the count to 2 and keeps the sentinel, while
`updateClickCount` raises the count to 2 and stores the event's poster URL. -/
theorem C5_search_keeps_sentinel :
    sentinelWorld.healthy ∧
    (sentinelWorld.docs.map (fun d => d.poster_url))
      = [.val "/no-movie.png", .val "/no-movie.png"] ∧
    truthyStr dune.poster_path = true ∧
    ((updateSearchCount cfgSplit "dune" (.val dune) sentinelWorld).2.docs.map
        (fun d => (d.count, d.poster_url)))
      = [(.val 2, .val "/no-movie.png"), (.val 1, .val "/no-movie.png")] ∧
    ((updateClickCount cfgSplit (.val dune) sentinelWorld).2.docs.map
        (fun d => (d.count, d.poster_url)))
      = [(.val 1, .val "/no-movie.png"),
         (.val 2, .val "https://image.tmdb.org/t/p/w500//abc.jpg")] := by
  decide

/-- Counterexample to C6 as stated: the stored poster `./no-movie.png` is not
empty, contains no placeholder pattern and is not equal to the sentinel
`/no-movie.png`, yet a click that carries a poster replaces it. -/
theorem C6_poster_ratchet_counterexample :
    relativeWorld.idsUnique ∧
    relativeWorld.docs.map (fun d => d.poster_url) = [.val "./no-movie.png"] ∧
    truthyStr dune.poster_path = true ∧
    (updateClickCount cfgSplit (.val dune) relativeWorld).2.docs.map (fun d => d.poster_url)
      = [.val "https://image.tmdb.org/t/p/w500//abc.jpg"] ∧
    ¬ (truthyStr relativeDoc.poster_url = false ∨
        urlIncludes relativeDoc.poster_url "placeholder.com" = true ∨
        urlIncludes relativeDoc.poster_url "No+Image" = true ∨
        relativeDoc.poster_url = .val "/no-movie.png") :=
  ⟨by decide, rfl, rfl, rfl, by decide⟩

/-- C6 (amended): one-way ratchet. In a store with unique identifiers and under
every outcome schedule, a record (`updateSearchCount` or `updateClickCount`)
changes the stored `poster_url` of an existing document only if the event
carries a non-empty poster and the stored value is empty, contains a placeholder
pattern (`placeholder.com`, `No+Image`), or ends with the no-image sentinel path
`/no-movie.png`. -/
theorem C6_poster_ratchet (cfg : Config) (w : World) (hu : w.idsUnique) :
    (∀ (K : String) (movie : Js Movie) (i : Nat) (d : Doc), w.docs[i]? = some d →
      ∃ d1, (updateSearchCount cfg K movie w).2.docs[i]? = some d1 ∧
        (d1.poster_url ≠ d.poster_url →
          truthyStr (Movie.poster_path? movie) = true ∧
          (truthyStr d.poster_url = false ∨ urlIncludes d.poster_url "placeholder.com" = true ∨
            urlIncludes d.poster_url "No+Image" = true ∨
            urlEndsWith d.poster_url "/no-movie.png" = true))) ∧
    (∀ (movie : Js Movie) (i : Nat) (d : Doc), w.docs[i]? = some d →
      ∃ d1, (updateClickCount cfg movie w).2.docs[i]? = some d1 ∧
        (d1.poster_url ≠ d.poster_url →
          truthyStr (Movie.poster_path? movie) = true ∧
          (truthyStr d.poster_url = false ∨ urlIncludes d.poster_url "placeholder.com" = true ∨
            urlIncludes d.poster_url "No+Image" = true ∨
            urlEndsWith d.poster_url "/no-movie.png" = true))) := by
  constructor
  · intro K movie i d hd
    rcases updateSearchCount_shape cfg K movie w with hs | ⟨f, rest, hsel, hp⟩ | ⟨-, id, hs⟩ |
      ⟨-, id, hs⟩
    · exact ⟨d, by rw [hs]; exact hd, fun h => absurd rfl h⟩
    · obtain ⟨hmem, hcoll⟩ := selectDocs_equal_head_mem hsel
      rcases hp.getElem? hu hmem hcoll rfl hd with h1 | ⟨rfl, h1⟩
      · exact ⟨d, h1, fun h => absurd rfl h⟩
      · refine ⟨_, h1, fun h => ?_⟩
        obtain ⟨ha, hb⟩ := searchUpdate_poster d movie h
        exact ⟨ha, by tauto⟩
    · exact ⟨d, by rw [hs]; exact getElem?_append_of_some _ hd, fun h => absurd rfl h⟩
    · exact ⟨d, by rw [hs]; exact getElem?_append_of_some _ hd, fun h => absurd rfl h⟩
  · intro movie i d hd
    rcases updateClickCount_shape cfg movie w with hs | ⟨m, K, hm, -, -, ⟨f, rest, hsel, hp⟩ |
      ⟨-, id, hs⟩⟩
    · exact ⟨d, by rw [hs]; exact hd, fun h => absurd rfl h⟩
    · obtain ⟨hmem, hcoll⟩ := selectDocs_equal_head_mem hsel
      rcases hp.getElem? hu hmem hcoll rfl hd with h1 | ⟨rfl, h1⟩
      · exact ⟨d, h1, fun h => absurd rfl h⟩
      · refine ⟨_, h1, fun h => ?_⟩
        subst hm
        exact clickUpdate_poster d m h
    · exact ⟨d, by rw [hs]; exact getElem?_append_of_some _ hd, fun h => absurd rfl h⟩

/-- Witness of C6 (amended): a search on the store that holds a real poster for
Dune (the poster stays), and a click on the store whose click counter holds the
sentinel (the poster is replaced, the stored value ending with the sentinel
path). -/
theorem C6_poster_ratchet_witness :
    duneWorld.idsUnique ∧ duneWorld.docs[0]? = some duneSearchDoc ∧
    sentinelWorld.idsUnique ∧ sentinelWorld.docs[1]? = some (clickDoc 1 438631 "Dune" 1) ∧
    (∃ d1, (updateSearchCount cfgSplit "dune" (.val dune) duneWorld).2.docs[0]? = some d1 ∧
      (d1.poster_url ≠ duneSearchDoc.poster_url →
        truthyStr (Movie.poster_path? (.val dune)) = true ∧
        (truthyStr duneSearchDoc.poster_url = false ∨
          urlIncludes duneSearchDoc.poster_url "placeholder.com" = true ∨
          urlIncludes duneSearchDoc.poster_url "No+Image" = true ∨
          urlEndsWith duneSearchDoc.poster_url "/no-movie.png" = true))) ∧
    (∃ d1, (updateClickCount cfgSplit (.val dune) sentinelWorld).2.docs[1]? = some d1 ∧
      (d1.poster_url ≠ (clickDoc 1 438631 "Dune" 1).poster_url →
        truthyStr (Movie.poster_path? (.val dune)) = true ∧
        (truthyStr (clickDoc 1 438631 "Dune" 1).poster_url = false ∨
          urlIncludes (clickDoc 1 438631 "Dune" 1).poster_url "placeholder.com" = true ∨
          urlIncludes (clickDoc 1 438631 "Dune" 1).poster_url "No+Image" = true ∨
          urlEndsWith (clickDoc 1 438631 "Dune" 1).poster_url "/no-movie.png" = true))) :=
  ⟨by decide, rfl, by decide, rfl,
    (C6_poster_ratchet cfgSplit duneWorld (by decide)).1 "dune" (.val dune) 0 duneSearchDoc rfl,
    (C6_poster_ratchet cfgSplit sentinelWorld (by decide)).2 (.val dune) 1
      (clickDoc 1 438631 "Dune" 1) rfl⟩

/-- C7: when the list call succeeds (the store honouring the order and limit
queries), `getTrendingMovies` returns at most 5 documents of the click
collection, ordered by non-increasing count (`descBy .count x y` says the count
of `y` is at most that of `x`, see `descBy_count`), and every document of the
collection it omits has a count no greater than each returned one (`top ++ rest`
is a rearrangement of the collection). -/
theorem C7_trending_top_five (cfg : Config) (w : World) (hw : w.healthy) :
    ∃ top rest, (getTrendingMovies cfg w).1 = .ok top ∧
      top.length ≤ 5 ∧
      top.Pairwise (descBy .count) ∧
      (top ++ rest).Perm (w.collection (CLICKS_COLLECTION_ID cfg)) ∧
      ∀ r ∈ top, ∀ o ∈ rest, descBy .count r o := by
  have hs := List.sorted_insertionSort (descBy .count) (w.collection (CLICKS_COLLECTION_ID cfg))
  refine ⟨_, ((w.collection (CLICKS_COLLECTION_ID cfg)).insertionSort (descBy .count)).drop 5,
    getTrendingMovies_of_healthy hw, ?_, ?_, ?_, ?_⟩
  · simp
  · exact hs.sublist (List.take_sublist _ _)
  · rw [List.take_append_drop]
    exact List.perm_insertionSort _ _
  · intro r hr o ho
    have := hs
    rw [← List.take_append_drop 5 (List.insertionSort _ _)] at this
    exact (List.pairwise_append.1 this).2.2 r hr o ho

/-- Witness of C7: on the counters A:10, B:7, C:7, D:1 the ranking starts with A
and ends with D. -/
theorem C7_trending_top_five_witness :
    rankingWorld.healthy ∧
    (getTrendingMovies cfgSplit rankingWorld).1 =
      .ok [clickDoc 2 1 "A" 10, clickDoc 1 2 "B" 7, clickDoc 3 3 "C" 7, clickDoc 0 4 "D" 1] ∧
    ∃ top rest, (getTrendingMovies cfgSplit rankingWorld).1 = .ok top ∧
      top.length ≤ 5 ∧
      top.Pairwise (descBy .count) ∧
      (top ++ rest).Perm (rankingWorld.collection (CLICKS_COLLECTION_ID cfgSplit)) ∧
      ∀ r ∈ top, ∀ o ∈ rest, descBy .count r o :=
  ⟨by decide, rfl, C7_trending_top_five cfgSplit rankingWorld (by decide)⟩

/-- C8: `getTrendingMovies` never rejects, whatever the store does, and when its
list call fails with any error it resolves to the empty sequence. -/
theorem C8_trending_swallows_failure :
    (∀ (cfg : Config) (w : World), ∃ top, (getTrendingMovies cfg w).1 = .ok top) ∧
    (∀ (cfg : Config) (w : World) (e : Err),
      (getTrendingMovies cfg { w with faults := some e :: w.faults }).1 = .ok []) := by
  constructor
  · intro cfg w
    unfold getTrendingMovies
    split
    · exact ⟨_, rfl⟩
    · exact ⟨_, rfl⟩
  · intro cfg w e
    simp [getTrendingMovies, listDocuments, World.request]

/-- C9: for every input and every outcome schedule of the store calls (find,
create, update or the fallback create failing with any error),
`updateSearchCount`, `updateClickCount` and `updatePosterUrl` resolve: none of
them rejects to its caller. -/
theorem C9_records_never_reject (cfg : Config) (w : World) :
    (∀ (K : String) (movie : Js Movie), (updateSearchCount cfg K movie w).1 = .ok ()) ∧
    (∀ (movie : Js Movie), (updateClickCount cfg movie w).1 = .ok ()) ∧
    (∀ (movieId : Js Int) (url : Js String), (updatePosterUrl cfg movieId url w).1 = .ok ()) := by
  refine ⟨fun K movie => catchAll_fst _, fun movie => ?_, fun movieId url => ?_⟩
  · unfold updateClickCount
    split
    · split
      · split
        · exact catchAll_fst _
        · rfl
      · rfl
    · rfl
  · unfold updatePosterUrl
    split
    · split
      · exact catchAll_fst _
      · rfl
    · rfl

/-- C12: for every store state with no click-counter document for movie `M`,
every poster URL `U` (absent and empty ones included) and every outcome
schedule, `updatePosterUrl(M, U)` leaves the stored documents and the identifier
counter unchanged and issues no request other than, at most, its find. -/
theorem C12_poster_refresh_creates_nothing (cfg : Config) (w : World) (M : Int)
    (U : Js String)
    (hnone : selectDocs w.docs (CLICKS_COLLECTION_ID cfg) [.equal .movie_id (.num M)] = []) :
    (updatePosterUrl cfg (.val M) U w).2.docs = w.docs ∧
    (updatePosterUrl cfg (.val M) U w).2.nextId = w.nextId ∧
    ((updatePosterUrl cfg (.val M) U w).2.calls = w.calls ∨
      (updatePosterUrl cfg (.val M) U w).2.calls
        = w.calls ++ [.list (CLICKS_COLLECTION_ID cfg) [.equal .movie_id (.num M)]]) := by
  refine ⟨?_, updatePosterUrl_snd_nextId _ _ _ _, ?_⟩
  · rcases updatePosterUrl_shape cfg (.val M) U w with h | ⟨K, url, d, rest, hK, -, hsel, -⟩
    · exact h
    · cases hK
      rw [hnone] at hsel
      exact absurd hsel (by simp)
  · cases U with
    | undefined => exact Or.inl (by simp [updatePosterUrl])
    | null => exact Or.inl (by simp [updatePosterUrl])
    | val url =>
      by_cases hg : M = 0 ∨ url = ""
      · exact Or.inl (by rw [updatePosterUrl_guard cfg M url w hg])
      · have hM : M ≠ 0 := fun h => hg (Or.inl h)
        have hU : url ≠ "" := fun h => hg (Or.inr h)
        have hrun : updatePosterUrl cfg (.val M) (.val url) w
            = catchAll (updatePosterUrlBody cfg M url w) := by
          simp [updatePosterUrl, hM, hU]
        right
        rw [hrun, catchAll_snd]
        unfold updatePosterUrlBody
        split
        · next e w1 h => exact listDocuments_calls h
        · next rs w1 h =>
          have hrs := listDocuments_ok h
          rw [hnone] at hrs
          subst hrs
          exact listDocuments_calls h

/-- Witness of C12: a refresh for a movie the store has no counter for. -/
theorem C12_poster_refresh_creates_nothing_witness :
    selectDocs duneWorld.docs (CLICKS_COLLECTION_ID cfgSplit)
      [.equal .movie_id (.num 999)] = [] ∧
    (updatePosterUrl cfgSplit (.val 999) (.val "https://img/real.jpg") duneWorld).2.docs
      = duneWorld.docs ∧
    (updatePosterUrl cfgSplit (.val 999) (.val "https://img/real.jpg") duneWorld).2.nextId
      = duneWorld.nextId ∧
    ((updatePosterUrl cfgSplit (.val 999) (.val "https://img/real.jpg") duneWorld).2.calls
        = duneWorld.calls ∨
      (updatePosterUrl cfgSplit (.val 999) (.val "https://img/real.jpg") duneWorld).2.calls
        = duneWorld.calls ++
          [.list (CLICKS_COLLECTION_ID cfgSplit) [.equal .movie_id (.num 999)]]) :=
  ⟨by decide,
    C12_poster_refresh_creates_nothing cfgSplit duneWorld 999 (.val "https://img/real.jpg")
      (by decide)⟩

/-- Counterexample to C14 as stated: a POST is answered 405; with the API key
missing the body of the 500 answer is an error object, not an empty sequence;
with every parameter present a store answering 503 is passed on as 503 and a
failing request is answered 500. -/
theorem C14_handler_counterexample :
    (handler parseAny storeUp envReady { method := "POST" }).status = 405 ∧
    envNoKey.misconfigured = true ∧
    handler parseAny storeUp envNoKey { method := "GET" }
      = { status := 500, body := .error (.val "Server misconfiguration") .undefined } ∧
    (handler parseAny storeUp envNoKey { method := "GET" }).body ≠ .documents [] ∧
    envReady.misconfigured = false ∧
    (handler parseAny storeDown envReady { method := "GET" }).status = 503 ∧
    (handler parseAny storeUnreachable envReady { method := "GET" }).status = 500 := by
  decide

/-- C14 (amended): the answers of the read endpoint, for every request,
environment, URL constructor and store response. A request that is not a GET
is answered 405 with an error object. A GET with endpoint, project id or API
key missing is answered 500 with the error object `Server misconfiguration`.
The status is 200 exactly when the request is a GET, these parameters are
present, the URL is accepted and the store answers with an ok status and a
parsed body; the body is then `data.documents || []`. A GET with the parameters
present is answered 200, 500, or the status of a store answer that is not ok.
Every answer whose status is not 200 carries an error object. -/
theorem C14_handler_answers (parseURL : String → Except Err String)
    (fetch : StoreRequest → FetchResult) (env : Env) (req : Req) :
    (req.method = "GET" → env.misconfigured = false →
      (handler parseURL fetch env req).status = 200 ∨
      (handler parseURL fetch env req).status = 500 ∨
      ∃ href status text json,
        parseURL (documentsUrl env) = .ok href ∧
        fetch (storeRequest env href) = .response status text json ∧
        statusOk status = false ∧ (handler parseURL fetch env req).status = status) ∧
    (req.method ≠ "GET" →
      (handler parseURL fetch env req).status = 405 ∧
      (handler parseURL fetch env req).isError) ∧
    (req.method = "GET" → env.misconfigured = true →
      (handler parseURL fetch env req).status = 500 ∧
      (handler parseURL fetch env req).body
        = .error (.val "Server misconfiguration") .undefined) ∧
    ((handler parseURL fetch env req).status = 200 →
      req.method = "GET" ∧ env.misconfigured = false ∧
      ∃ href status text data,
        parseURL (documentsUrl env) = .ok href ∧
        fetch (storeRequest env href) = .response status text (.ok (.val data)) ∧
        statusOk status = true ∧
        (handler parseURL fetch env req).body = .documents (orEmpty data.documents)) ∧
    (∀ href status text data, req.method = "GET" → env.misconfigured = false →
      parseURL (documentsUrl env) = .ok href →
      fetch (storeRequest env href) = .response status text (.ok (.val data)) →
      statusOk status = true →
      (handler parseURL fetch env req).status = 200) ∧
    ((handler parseURL fetch env req).status ≠ 200 →
      (handler parseURL fetch env req).isError) := by
  refine ⟨fun hg hm0 => ?_, ?_⟩
  · have hrun : handler parseURL fetch env req
        = handlerCatch (handlerBody parseURL fetch env) := by
      simp [handler, hg]
    rcases handlerBody_cases parseURL fetch env with ⟨hm, -⟩ | ⟨-, err, hb⟩ |
      ⟨-, href, status, text, json, t, hp, hf, hs, hb⟩ |
      ⟨-, href, status, text, data, hp, hf, hs, hb⟩
    · rw [hm] at hm0; exact absurd hm0 (by decide)
    · exact Or.inr (Or.inl (by rw [hrun, hb]; rfl))
    · exact Or.inr (Or.inr ⟨href, status, text, json, hp, hf, hs, by rw [hrun, hb]; rfl⟩)
    · exact Or.inl (by rw [hrun, hb]; rfl)
  by_cases hg : req.method = "GET"
  · have hrun : handler parseURL fetch env req
        = handlerCatch (handlerBody parseURL fetch env) := by
      simp [handler, hg]
    rcases handlerBody_cases parseURL fetch env with ⟨hm, hb⟩ | ⟨hm, err, hb⟩ |
      ⟨hm, href, status, text, json, t, hp, hf, hs, hb⟩ |
      ⟨hm, href, status, text, data, hp, hf, hs, hb⟩
    · rw [hrun, hb]
      refine ⟨fun h => absurd hg h, fun _ _ => ⟨rfl, rfl⟩, fun h => absurd h (by decide), ?_,
        fun _ => ⟨_, _, rfl⟩⟩
      intro href status text data _ hm0
      rw [hm] at hm0
      exact absurd hm0 (by decide)
    · rw [hrun, hb]
      refine ⟨fun h => absurd hg h, fun _ hm1 => ?_,
        fun h => absurd h (by simp [handlerCatch]), ?_, fun _ => ⟨_, _, rfl⟩⟩
      · rw [hm] at hm1; exact absurd hm1 (by decide)
      · intro href status text data _ _ hp hf hs
        have : handlerBody parseURL fetch env
            = .ok { status := 200, body := .documents (orEmpty data.documents) } := by
          simp [handlerBody, hm, hp, hf, hs]
        rw [this] at hb
        exact absurd hb (by simp)
    · rw [hrun, hb]
      have hne : status ≠ 200 := by
        intro h; rw [h] at hs; exact absurd hs (by decide)
      refine ⟨fun h => absurd hg h, fun _ hm1 => ?_, fun h => absurd h hne, ?_,
        fun _ => ⟨_, _, rfl⟩⟩
      · rw [hm] at hm1; exact absurd hm1 (by decide)
      · intro href2 status2 text2 data2 _ _ hp2 hf2 hs2
        rw [hp] at hp2
        cases hp2
        rw [hf] at hf2
        cases hf2
        rw [hs] at hs2
        exact absurd hs2 (by decide)
    · rw [hrun, hb]
      refine ⟨fun h => absurd hg h, fun _ hm1 => ?_,
        fun _ => ⟨hg, hm, href, status, text, data, hp, hf, hs, rfl⟩, fun _ _ _ _ _ _ _ _ _ => rfl,
        fun h => absurd rfl h⟩
      rw [hm] at hm1; exact absurd hm1 (by decide)
  · have hrun : handler parseURL fetch env req
        = { status := 405, body := .error (.val "Method not allowed") .undefined
            headers := [("Allow", "GET")] } := by
      simp [handler, hg]
    rw [hrun]
    exact ⟨fun _ => ⟨rfl, _, _, rfl⟩, fun h => absurd h hg, fun h => absurd h (by decide),
      fun _ _ _ _ h => absurd h hg, fun _ => ⟨_, _, rfl⟩⟩

/-- Witness of C14 (amended): a GET with a complete configuration and a store
that answers with one document. -/
theorem C14_handler_answers_witness :
    envReady.misconfigured = false ∧
    handler parseAny storeUp envReady { method := "GET" }
      = { status := 200, body := .documents [duneClickDoc] } ∧
    (handler parseAny storeUp envReady { method := "GET" }).status = 200 :=
  ⟨by decide, by decide,
    (C14_handler_answers parseAny storeUp envReady { method := "GET" }).2.2.2.2.1
      _ 200 (.ok "") { documents := .val [duneClickDoc] } rfl (by decide) rfl rfl (by decide)⟩

/-- Counterexample to C15 as stated: `updateSearchCount` with the empty string
as title keeps the stored title where `title ?? existing` is the empty string,
and `updateClickCount` with the title `null` stores `null` where
`title ?? existing` is the existing title. -/
theorem C15_title_counterexample :
    duneWorld.healthy ∧ duneWorld.idsUnique ∧
    duneWorld.docs.map (fun d => d.title) = [.val "Dune", .val "Dune"] ∧
    (updateSearchCount cfgSplit "dune" (.val duneEmptyTitle) duneWorld).2.docs.map
        (fun d => d.title) = [.val "Dune", .val "Dune"] ∧
    nullish duneEmptyTitle.title duneSearchDoc.title = .val "" ∧
    (updateClickCount cfgSplit (.val duneNullTitle) duneWorld).2.docs.map
        (fun d => d.title) = [.val "Dune", .null] ∧
    nullish duneNullTitle.title duneClickDoc.title = .val "Dune" := by
  decide

/-- C15 (amended): the title of a record on a key with an existing document
(`d`, the first the find returns), when every store call succeeds and
identifiers are unique. `updateSearchCount` sends `title = movie?.title ||
doc.title`: the event's title when it is a non-empty string, the existing title
otherwise, and the stored title becomes that value. `updateClickCount` sends
`title = movie.title`: when the event's title is a string it is sent and stored,
when it is `undefined` no title is sent and the stored title stays. -/
theorem C15_title_written (cfg : Config) (w : World) (hw : w.healthy) (hu : w.idsUnique) :
    (∀ (K : String) (movie : Js Movie) (d : Doc) (rest : List Doc),
      selectDocs w.docs (COLLECTION_ID cfg) [.equal .searchTerm (.str K)] = d :: rest →
      ∃ data pre post d1,
        (updateSearchCount cfg K movie w).2.calls = w.calls ++
          [.list (COLLECTION_ID cfg) [.equal .searchTerm (.str K)],
           .update (COLLECTION_ID cfg) d.id data] ∧
        w.docs = pre ++ d :: post ∧
        (updateSearchCount cfg K movie w).2.docs = pre ++ d1 :: post ∧
        (∀ t, Movie.title? movie = .val t → t ≠ "" → data.title = .val t ∧ d1.title = .val t) ∧
        (truthyStr (Movie.title? movie) = false → data.title = d.title ∧ d1.title = d.title)) ∧
    (∀ (m : Movie) (K : Int) (d : Doc) (rest : List Doc), m.id = .val K → K ≠ 0 →
      selectDocs w.docs (CLICKS_COLLECTION_ID cfg) [.equal .movie_id (.num K)] = d :: rest →
      ∃ data pre post d1,
        (updateClickCount cfg (.val m) w).2.calls = w.calls ++
          [.list (CLICKS_COLLECTION_ID cfg) [.equal .movie_id (.num K)],
           .update (CLICKS_COLLECTION_ID cfg) d.id data] ∧
        w.docs = pre ++ d :: post ∧
        (updateClickCount cfg (.val m) w).2.docs = pre ++ d1 :: post ∧
        (∀ t, m.title = .val t → data.title = .val t ∧ d1.title = .val t) ∧
        (m.title = .undefined → data.title = .undefined ∧ d1.title = d.title)) := by
  constructor
  · intro K movie d rest hfind
    obtain ⟨pre, post, hs, hd⟩ := updateSearchCount_existing movie hw hu hfind
    refine ⟨_, pre, post, _, updateSearchCount_existing_calls movie hw hu hfind, hs, hd, ?_, ?_⟩
    · intro t ht hne
      simp [Doc.patch, searchUpdate, orStr, truthyStr, ht, hne, merge]
    · intro hf
      simp [Doc.patch, searchUpdate, orStr, hf, merge_self]
  · intro m K d rest hid hK hfind
    obtain ⟨pre, post, hs, hd⟩ := updateClickCount_existing hw hu hid hK hfind
    refine ⟨_, pre, post, _, updateClickCount_existing_calls hw hu hid hK hfind, hs, hd, ?_, ?_⟩
    · intro t ht
      simp [Doc.patch, clickUpdate, ht, merge]
    · intro ht
      simp [Doc.patch, clickUpdate, ht, merge]

/-- Witness of C15 (amended): a search and a click for Dune on the store that
holds both counters. -/
theorem C15_title_written_witness :
    duneWorld.healthy ∧ duneWorld.idsUnique ∧
    (∃ data pre post d1,
      (updateSearchCount cfgSplit "dune" (.val dune) duneWorld).2.calls = duneWorld.calls ++
        [.list (COLLECTION_ID cfgSplit) [.equal .searchTerm (.str "dune")],
         .update (COLLECTION_ID cfgSplit) duneSearchDoc.id data] ∧
      duneWorld.docs = pre ++ duneSearchDoc :: post ∧
      (updateSearchCount cfgSplit "dune" (.val dune) duneWorld).2.docs = pre ++ d1 :: post ∧
      (∀ t, Movie.title? (.val dune) = .val t → t ≠ "" →
        data.title = .val t ∧ d1.title = .val t) ∧
      (truthyStr (Movie.title? (.val dune)) = false →
        data.title = duneSearchDoc.title ∧ d1.title = duneSearchDoc.title)) ∧
    (∃ data pre post d1,
      (updateClickCount cfgSplit (.val dune) duneWorld).2.calls = duneWorld.calls ++
        [.list (CLICKS_COLLECTION_ID cfgSplit) [.equal .movie_id (.num 438631)],
         .update (CLICKS_COLLECTION_ID cfgSplit) duneClickDoc.id data] ∧
      duneWorld.docs = pre ++ duneClickDoc :: post ∧
      (updateClickCount cfgSplit (.val dune) duneWorld).2.docs = pre ++ d1 :: post ∧
      (∀ t, dune.title = .val t → data.title = .val t ∧ d1.title = .val t) ∧
      (dune.title = .undefined → data.title = .undefined ∧ d1.title = duneClickDoc.title)) :=
  ⟨by decide, by decide,
    (C15_title_written cfgSplit duneWorld (by decide) (by decide)).1
      "dune" (.val dune) duneSearchDoc [] (by decide),
    (C15_title_written cfgSplit duneWorld (by decide) (by decide)).2
      dune 438631 duneClickDoc [] rfl (by decide) (by decide)⟩

/-- C16: frame of a record. In a store with unique identifiers and under every
outcome schedule, `updateSearchCount` and `updateClickCount` leave the stored
documents as they are, or replace exactly one of them in place (the first one
the find returns for the event's key, its identifier, collection and key kept,
its count becoming `(doc.count || 0) + 1`, that is `c + 1` for a count `c`) and
leave every other document untouched, or
append exactly one new document for a key that had none; no document is removed
and no count decreases. -/
theorem C16_record_frame (cfg : Config) (w : World) (hu : w.idsUnique) :
    (∀ (K : String) (movie : Js Movie),
      (updateSearchCount cfg K movie w).2.docs = w.docs ∨
      (∃ pre d post rest d1,
        selectDocs w.docs (COLLECTION_ID cfg) [.equal .searchTerm (.str K)] = d :: rest ∧
        w.docs = pre ++ d :: post ∧
        (updateSearchCount cfg K movie w).2.docs = pre ++ d1 :: post ∧
        d1.id = d.id ∧ d1.collectionId = d.collectionId ∧ d1.searchTerm = d.searchTerm ∧
        d1.count = .val (orZero d.count + 1) ∧
        (∀ c, d.count = .val c → d1.count = .val (c + 1))) ∨
      (selectDocs w.docs (COLLECTION_ID cfg) [.equal .searchTerm (.str K)] = [] ∧
        ∃ new, (updateSearchCount cfg K movie w).2.docs = w.docs ++ [new] ∧
          new.collectionId = COLLECTION_ID cfg ∧ new.searchTerm = .val K ∧
          new.count = .val 1)) ∧
    (∀ (movie : Js Movie),
      (updateClickCount cfg movie w).2.docs = w.docs ∨
      ∃ m K, movie = .val m ∧ m.id = .val K ∧ K ≠ 0 ∧
      ((∃ pre d post rest d1,
        selectDocs w.docs (CLICKS_COLLECTION_ID cfg) [.equal .movie_id (.num K)] = d :: rest ∧
        w.docs = pre ++ d :: post ∧
        (updateClickCount cfg movie w).2.docs = pre ++ d1 :: post ∧
        d1.id = d.id ∧ d1.collectionId = d.collectionId ∧ d1.movie_id = d.movie_id ∧
        d1.count = .val (orZero d.count + 1) ∧
        (∀ c, d.count = .val c → d1.count = .val (c + 1))) ∨
      (selectDocs w.docs (CLICKS_COLLECTION_ID cfg) [.equal .movie_id (.num K)] = [] ∧
        ∃ new, (updateClickCount cfg movie w).2.docs = w.docs ++ [new] ∧
          new.collectionId = CLICKS_COLLECTION_ID cfg ∧ new.movie_id = .val K ∧
          new.count = .val 1))) := by
  constructor
  · intro K movie
    rcases updateSearchCount_shape cfg K movie w with hs | ⟨f, rest, hsel, hp⟩ | ⟨hn, id, hs⟩ |
      ⟨hn, id, hs⟩
    · exact Or.inl hs
    · obtain ⟨hmem, hcoll⟩ := selectDocs_equal_head_mem hsel
      obtain ⟨pre, post, h1, h2⟩ := hp.split_found hu hmem hcoll
      refine Or.inr (Or.inl ⟨pre, f, post, rest, _, hsel, h1, h2, rfl, rfl, ?_, ?_, ?_⟩)
      · simp [Doc.patch, searchUpdate, merge]
      · simp [Doc.patch, searchUpdate, merge]
      · intro c hc
        simp [Doc.patch, searchUpdate, merge, hc, orZero_val]
    · exact Or.inr (Or.inr ⟨hn, _, hs, rfl, by simp [Fields.toDoc, fullPayload, stored],
        by simp [Fields.toDoc, fullPayload, stored]⟩)
    · exact Or.inr (Or.inr ⟨hn, _, hs, rfl, by simp [Fields.toDoc, minimalPayload, stored],
        by simp [Fields.toDoc, minimalPayload, stored]⟩)
  · intro movie
    rcases updateClickCount_shape cfg movie w with hs | ⟨m, K, hm, hid, hK, ⟨f, rest, hsel, hp⟩ |
      ⟨hn, id, hs⟩⟩
    · exact Or.inl hs
    · obtain ⟨hmem, hcoll⟩ := selectDocs_equal_head_mem hsel
      obtain ⟨pre, post, h1, h2⟩ := hp.split_found hu hmem hcoll
      refine Or.inr ⟨m, K, hm, hid, hK, Or.inl ⟨pre, f, post, rest, _, hsel, h1, h2, rfl, rfl,
        ?_, ?_, ?_⟩⟩
      · simp [Doc.patch, clickUpdate, merge]
      · simp [Doc.patch, clickUpdate, merge]
      · intro c hc
        simp [Doc.patch, clickUpdate, merge, hc, orZero_val]
    · exact Or.inr ⟨m, K, hm, hid, hK, Or.inr ⟨hn, _, hs, rfl,
        by simp [Fields.toDoc, clickCreate, stored, hid],
        by simp [Fields.toDoc, clickCreate, stored]⟩⟩

/-- Witness of C16: a search and a click for Dune on the store that holds both
counters. -/
theorem C16_record_frame_witness :
    duneWorld.idsUnique ∧
    ((updateSearchCount cfgSplit "dune" (.val dune) duneWorld).2.docs = duneWorld.docs ∨
      (∃ pre d post rest d1,
        selectDocs duneWorld.docs (COLLECTION_ID cfgSplit)
          [.equal .searchTerm (.str "dune")] = d :: rest ∧
        duneWorld.docs = pre ++ d :: post ∧
        (updateSearchCount cfgSplit "dune" (.val dune) duneWorld).2.docs = pre ++ d1 :: post ∧
        d1.id = d.id ∧ d1.collectionId = d.collectionId ∧ d1.searchTerm = d.searchTerm ∧
        d1.count = .val (orZero d.count + 1) ∧
        (∀ c, d.count = .val c → d1.count = .val (c + 1))) ∨
      (selectDocs duneWorld.docs (COLLECTION_ID cfgSplit)
          [.equal .searchTerm (.str "dune")] = [] ∧
        ∃ new, (updateSearchCount cfgSplit "dune" (.val dune) duneWorld).2.docs
            = duneWorld.docs ++ [new] ∧
          new.collectionId = COLLECTION_ID cfgSplit ∧ new.searchTerm = .val "dune" ∧
          new.count = .val 1)) ∧
    (updateSearchCount cfgSplit "dune" (.val dune) duneWorld).2.docs.map (fun d => d.count)
      = [.val 4, .val 7] ∧
    (updateClickCount cfgSplit (.val dune) duneWorld).2.docs.map (fun d => d.count)
      = [.val 3, .val 8] :=
  ⟨by decide, (C16_record_frame cfgSplit duneWorld (by decide)).1 "dune" (.val dune),
    by decide, by decide⟩

end Appwrite
